import Mathlib

/-!
Shallow embedding of the section-transition state machine and the
point-morphing/scatter engine of `src/main.js` (and its configuration in
`src/js/sections.js`).

Conventions of the embedding:
* JavaScript numbers are modelled as exact rationals (`ℚ`); `Math.floor` is
  `Int.floor` (on naturals, `Nat` division), `Math.round` is floor of `x + 1/2`
  (JS rounds halves toward positive infinity; all rounded quantities here are
  nonnegative).
* Typed arrays of 3-component attributes are modelled as `List V3` / `List Col`;
  an attribute's `count` is the list length, and the JS `?? 0` fallback on an
  out-of-range read is `List.getD` with a zero default.
* Rendering-only globals (shader uniforms, DOM nodes, post-processing passes,
  fog, console logging) have no observable effect on the state machine and are
  not part of the state.
* GSAP tweens ease values toward fixed targets over time; the embedding records
  the commanded target values and, for `immediate` updates, applies them at
  once, which is each tween's fixed point.
-/

set_option maxRecDepth 100000

namespace CostOfAQuestion

/-- THREE.MathUtils.clamp: `Math.max(lo, Math.min(hi, v))`. -/
def clampQ (v lo hi : ℚ) : ℚ := max lo (min hi v)

/-- THREE.MathUtils.lerp: `x + (y - x) * t`. -/
def lerpQ (x y t : ℚ) : ℚ := x + (y - x) * t

/-- JS `Math.round` on nonnegative inputs: floor of `q + 1/2`. -/
def jround (q : ℚ) : ℤ := ⌊q + 1/2⌋

/-- easeInOutCubic from main.js. -/
def easeInOutCubic (t : ℚ) : ℚ :=
  let c := clampQ t 0 1
  if c < 1/2 then 4 * c * c * c else 1 - ((-2) * c + 2) ^ 3 / 2

/-- A 3-component position. -/
structure V3 where
  x : ℚ
  y : ℚ
  z : ℚ
  deriving DecidableEq, Repr

def v3zero : V3 := ⟨0, 0, 0⟩

/-- An RGB color value (the hex strings of main.js, decoded channelwise). -/
structure Col where
  r : ℚ
  g : ℚ
  b : ℚ
  deriving DecidableEq, Repr

def colzero : Col := ⟨0, 0, 0⟩

/-- A loaded point-cloud geometry: `position` attribute plus optional `color`
attribute (the loader hands back positions and optional colors). -/
structure Geom where
  positions : List V3
  colors : Option (List Col) := none
  deriving DecidableEq, Repr

/-- Loop body shared by `computeSampleFractions` and `createPointGeometry`:
`index = Math.floor(i * (sourceCount / keepCount))`, forced to
`sourceCount - 1` on the last slot or on overflow. -/
def sampleIndex (sourceCount keepCount i : ℕ) : ℕ :=
  let index := i * sourceCount / keepCount
  if i = keepCount - 1 ∨ sourceCount ≤ index then sourceCount - 1 else index

/-- `srcDenom = Math.max(1, sourceCount - 1)`. -/
def srcDenom (sourceCount : ℕ) : ℕ := max 1 (sourceCount - 1)

/-- The fraction stored for slot `i`: `index / srcDenom` (the `srcDenom > 0`
test in main.js is always true). -/
def sampleFraction (sourceCount keepCount i : ℕ) : ℚ :=
  (sampleIndex sourceCount keepCount i : ℚ) / (srcDenom sourceCount : ℚ)

/-- The fraction-filling loop of `computeSampleFractions` in main.js. -/
def computeSampleFractionsCore (sourceCount keepCount : ℕ) : List ℚ :=
  (List.range keepCount).map (sampleFraction sourceCount keepCount)

/-- `computeSampleFractions(sourceGeom, keepCount)` with its null guards
(missing/empty position attribute or non-positive keepCount give null). -/
def computeSampleFractions (g : Geom) (keepCount : ℕ) : Option (List ℚ) :=
  if keepCount = 0 ∨ g.positions.length = 0 then none
  else some (computeSampleFractionsCore g.positions.length keepCount)

/-- Nearest-index lookup of `generateMorphTargetArrayWithFractions`:
the fraction is clamped to `[0,1]`, then `Math.round(fraction * (tgtCount-1))`
clamped into `[0, tgtCount-1]`. -/
def resampleIndex (tgtCount : ℕ) (f : ℚ) : ℕ :=
  let fr := clampQ f 0 1
  let t0 : ℤ := jround (fr * ((tgtCount : ℚ) - 1))
  let t1 : ℤ := if t0 < 0 then 0 else t0
  if (tgtCount : ℤ) ≤ t1 then tgtCount - 1 else t1.toNat

/-- Nearest-index lookup of the morph loop inside `createPointGeometry`,
which (unlike `generateMorphTargetArrayWithFractions`) does not pre-clamp the
fraction. -/
def resampleIndexRaw (tgtCount : ℕ) (f : ℚ) : ℕ :=
  let t0 : ℤ := jround (f * ((tgtCount : ℚ) - 1))
  let t1 : ℤ := if t0 < 0 then 0 else t0
  if (tgtCount : ℤ) ≤ t1 then tgtCount - 1 else t1.toNat

/-- `generateMorphTargetArrayWithFractions(targetGeom, sampleFractions)`,
parameterized by `morphCount` (the live `morphTarget` attribute's count; the
`!points` / missing-attribute guards live at the state level). Returns the
resampled position list or null. -/
def generateMorphTargetArrayWithFractions (morphCount : ℕ) (target : Geom)
    (fractions : List ℚ) : Option (List V3) :=
  if fractions.length ≠ morphCount then none
  else
    let tgtCount := target.positions.length
    if tgtCount = 0 then none
    else some (fractions.map fun f => target.positions.getD (resampleIndex tgtCount f) v3zero)

/-- `generateMorphColorArrayWithFractions(targetGeom, sampleFractions)`:
same resampling over the target's `color` attribute (count taken from the
color attribute), null when the target has no colors. -/
def generateMorphColorArrayWithFractions (morphCount : ℕ) (target : Geom)
    (fractions : List ℚ) : Option (List Col) :=
  if fractions.length ≠ morphCount then none
  else
    match target.colors with
    | none => none
    | some cols =>
      if cols.length = 0 then none
      else some (fractions.map fun f => cols.getD (resampleIndex cols.length f) colzero)

/-- The attributes produced by `createPointGeometry(sourceGeom, targetGeom,
keepRatio)`: downsampled base positions/colors, the per-slot sample fractions,
and the morph target/color arrays. -/
structure PointGeomResult where
  keepCount : ℕ
  positions : List V3
  sampleFractions : List ℚ
  colors : Option (List Col)
  morphArray : List V3
  morphColorArray : Option (List Col)
  deriving DecidableEq, Repr

/-- `createPointGeometry` from main.js. The base loop samples positions,
colors and fractions by `sampleIndex`; the morph loop resamples the target by
the just-computed fractions (`Math.round(fraction * (tgtCount-1))`, clamped);
without a usable target the morph array is a copy of the base positions, and
the `morphColor` attribute falls back to a duplicate of the base colors. -/
def createPointGeometry (source : Geom) (target : Option Geom) (keepRatio : ℚ) :
    Option PointGeomResult :=
  let S := source.positions.length
  if S = 0 then none
  else
    let keepCount := if (999 : ℚ)/1000 ≤ keepRatio then S
      else max 1 (⌊(S : ℚ) * keepRatio⌋.toNat)
    let positions := (List.range keepCount).map fun i =>
      source.positions.getD (sampleIndex S keepCount i) v3zero
    let fractions := computeSampleFractionsCore S keepCount
    let colors := source.colors.map fun cols =>
      (List.range keepCount).map fun i => cols.getD (sampleIndex S keepCount i) colzero
    let morphPair : List V3 × Option (List Col) :=
      match target with
      | none => (positions, none)
      | some tg =>
        let tgtCount := tg.positions.length
        if tgtCount = 0 then (positions, none)
        else
          let arr := (List.range keepCount).map fun i =>
            tg.positions.getD (resampleIndexRaw tgtCount (fractions.getD i 0)) v3zero
          let colArr := tg.colors.map fun tcols =>
            (List.range keepCount).map fun i =>
              tcols.getD (resampleIndexRaw tgtCount (fractions.getD i 0)) colzero
          (arr, colArr)
    let morphColorFinal : Option (List Col) :=
      colors.map fun cs =>
        match morphPair.2 with
        | some mc => if mc.length = cs.length then mc else cs
        | none => cs
    some {
      keepCount := keepCount
      positions := positions
      sampleFractions := fractions
      colors := colors
      morphArray := morphPair.1
      morphColorArray := morphColorFinal
    }

/-- Transition phase of the section state machine. -/
inductive Phase
  | boot
  | idle
  | fadeOut
  | loading
  | fadeIn
  deriving DecidableEq, Repr

/-- A camera pose: path parameter plus yaw/pitch offsets in degrees. -/
structure Pose where
  pathT : ℚ
  yaw : ℚ
  pitch : ℚ
  deriving DecidableEq, Repr

/-- A per-section transform override (rotation / scale / offset). -/
structure Transform where
  rotX : ℚ := 0
  rotY : ℚ := 0
  rotZ : ℚ := 0
  scale : ℚ := 1
  offX : ℚ := 0
  offY : ℚ := 0
  offZ : ℚ := 0
  deriving DecidableEq, Repr

/-- A background gradient (top/mid/bottom colors). -/
structure Gradient where
  top : Col
  mid : Col
  bottom : Col
  deriving DecidableEq, Repr

/-- A static section descriptor from js/sections.js (fields the core reads;
text/eyebrow/settings that only feed DOM or shader uniforms are omitted; the
`background` field holds the already-normalized gradient of
`settings.background`). -/
structure SectionCfg where
  modelPath : ℕ
  cameraPathT : Option ℚ := none
  cameraYaw : Option ℚ := none
  cameraPitch : Option ℚ := none
  spinTurns : Option ℚ := none
  scatterOut : Option ℚ := none
  scatterIn : Option ℚ := none
  spinDuration : Option ℚ := none
  background : Option Gradient := none
  transform : Option Transform := none
  deriving DecidableEq, Repr

/-- The static configuration: the ordered section list. -/
structure Config where
  sections : List SectionCfg
  deriving DecidableEq, Repr

/- Transition-timing constants resolved from SECTION_TRANSITION in
js/sections.js (spinTurns 1.0, spinDuration 2.6, scatterOut/peak 0.85,
scatterIn 0.0, wheelThreshold 80, scrollScale 900) and the derived wheel/touch
constants of main.js. -/

def SECTION_SPIN_TURNS : ℚ := 1

def SECTION_SPIN_DURATION : ℚ := 26/10

def SECTION_SCATTER_OUT : ℚ := 85/100

def SECTION_SCATTER_IN : ℚ := 0

def SCROLL_SCATTER_PEAK : ℚ := 85/100

def SCROLL_TRIGGER_THRESHOLD : ℚ := 80

def TOUCH_TRIGGER_THRESHOLD : ℚ := SCROLL_TRIGGER_THRESHOLD * (6/10)

def SCROLL_PROGRESS_SCALE : ℚ := 900

def TOUCH_PROGRESS_SCALE : ℚ := SCROLL_PROGRESS_SCALE * (6/10)

/-- The exact double value of JS `Math.PI`. -/
def MATH_PI : ℚ := 884279719003555 / 281474976710656

/-- The live point object's geometry attributes and object3D transform. -/
structure Points where
  positionAttr : List V3
  morphTargetAttr : List V3
  colorAttr : Option (List Col) := none
  morphColorAttr : Option (List Col) := none
  rotX : ℚ := 0
  rotY : ℚ := 0
  rotZ : ℚ := 0
  scale : ℚ := 1
  posX : ℚ := 0
  posY : ℚ := 0
  posZ : ℚ := 0
  deriving DecidableEq, Repr

/-- A sectionAssets cache entry: lazily loaded geometry plus derived morph
array. -/
structure Asset where
  geometry : Option Geom := none
  morphArray : Option (List V3) := none
  deriving DecidableEq, Repr

/-- An outstanding `ensureSectionMorphTarget` promise chain. `swallow` records
whether the then/catch pair attached by `startSectionTransition` (which
converts rejection into a resolved `false`) is on the chain; `hasBegin`
whether `beginSectionLoad` attached its continuation; `outcome` is set once
the pre-`beginSectionLoad` part of the chain has run (promises resolve once). -/
structure LoadRec where
  lid : ℕ
  target : ℕ
  hasBegin : Bool
  swallow : Bool
  outcome : Option Bool
  deriving DecidableEq, Repr

/-- The fields of scrollTweenState / scrollTargetsCurrent. -/
structure TweenSet where
  rotation : ℚ := 0
  scatter : ℚ := 0
  morph : ℚ := 0
  colorMix : ℚ := 0
  trRotX : ℚ := 0
  trRotY : ℚ := 0
  trRotZ : ℚ := 0
  trScale : ℚ := 1
  trOffX : ℚ := 0
  trOffY : ℚ := 0
  trOffZ : ℚ := 0
  deriving DecidableEq, Repr

/-- The backgroundTransition record. -/
structure BgBlend where
  active : Bool := false
  src : Option Gradient := none
  dst : Option Gradient := none
  progress : ℚ := 0
  deriving DecidableEq, Repr

/-- The mutable state of the core: sectionState plus the module-level globals
the state machine reads and writes (group rotation, camera offsets, scatter,
morph progress, text opacity, background gradient and blend, the live points
object, the section asset cache, and the outstanding load chains). -/
structure Machine where
  index : ℕ
  phase : Phase
  phaseElapsed : ℚ := 0
  transitionElapsed : ℚ := 0
  rotationStart : ℚ := 0
  rotationMid : ℚ := 0
  rotationTarget : ℚ := 0
  rotationDuration : ℚ := SECTION_SPIN_DURATION
  wheelAccumulator : ℚ := 0
  pendingIndex : ℕ := 0
  pendingPromise : Option ℕ := none
  scatterRest : ℚ := SECTION_SCATTER_IN
  spinTurns : ℚ := SECTION_SPIN_TURNS
  isReady : Bool := false
  direction : ℚ := 1
  nextIndex : ℕ := 0
  nextSection : Option ℕ := none
  transitionProgress : ℚ := 0
  pendingScrollCarry : ℚ := 0
  scatterOut : ℚ := SECTION_SCATTER_OUT
  nextScatterRest : ℚ := SECTION_SCATTER_IN
  morphReady : Bool := false
  cameraStartPose : Option Pose := none
  cameraEndPose : Option Pose := none
  groupRotY : ℚ := 0
  cameraPathT : ℚ := 0
  cameraPathTarget : ℚ := 0
  cameraYawOffsetDeg : ℚ := 0
  cameraPitchOffsetDeg : ℚ := 0
  scatterAmp : ℚ := 0
  scatterGoal : ℚ := 0
  morphProgress : ℚ := 0
  morphUniformValue : ℚ := 0
  colorMixUniform : ℚ := 0
  textOpacityValue : ℚ := 0
  textOpacityTarget : ℚ := 0
  backgroundGradient : Gradient
  bg : BgBlend := {}
  scrollTweenState : TweenSet := {}
  scrollTargetsCurrent : TweenSet := {}
  points : Option Points := none
  assets : List Asset := []
  baseSampleFractions : Option (List ℚ) := none
  baseVertexCount : ℕ := 0
  originalGeom : Option Geom := none
  currentModelPath : Option ℕ := none
  currentSectionId : Option ℕ := none
  loads : List LoadRec := []
  nextLoadId : ℕ := 0

def getSectionCount (cfg : Config) : ℕ := cfg.sections.length

/-- normalizeSectionIndex: JS `%` is the truncating remainder, shifted up by
`total` when negative. -/
def normalizeSectionIndex (cfg : Config) (i : ℤ) : ℕ :=
  let total := getSectionCount cfg
  if total = 0 then 0
  else
    let md := Int.tmod i total
    (if md < 0 then md + total else md).toNat

def getSectionByIndex (cfg : Config) (i : ℤ) : Option SectionCfg :=
  if getSectionCount cfg = 0 then none
  else cfg.sections.get? (normalizeSectionIndex cfg i)

def getDefaultTransform : Transform := {}

def getSectionTransform (s : Option SectionCfg) : Transform :=
  match s with
  | some sec => sec.transform.getD getDefaultTransform
  | none => getDefaultTransform

def getAsset (m : Machine) (i : ℕ) : Asset := m.assets.getD i {}

def setAsset (m : Machine) (i : ℕ) (a : Asset) : Machine :=
  { m with assets := m.assets.set i a }

def getCurrentCameraPose (m : Machine) : Pose :=
  ⟨m.cameraPathTarget, m.cameraYawOffsetDeg, m.cameraPitchOffsetDeg⟩

/-- setCameraYawOffset: clamps to [-360,360] (the Number.isFinite guard always
passes on rationals); UI sync and camera repositioning are rendering-only. -/
def setCameraYawOffset (degrees : ℚ) (m : Machine) : Machine :=
  { m with cameraYawOffsetDeg := clampQ degrees (-360) 360 }

/-- setCameraPitchOffset: clamps to [-60,60]. -/
def setCameraPitchOffset (degrees : ℚ) (m : Machine) : Machine :=
  { m with cameraPitchOffsetDeg := clampQ degrees (-60) 60 }

/-- updateCameraPose: lerp between the stored start/end pose snapshots at
clamped progress; only the pathT result is clamped, yaw and pitch are written
back unclamped. -/
def updateCameraPose (progress : ℚ) (m : Machine) : Machine :=
  let start := m.cameraStartPose.getD (getCurrentCameraPose m)
  let stop := m.cameraEndPose.getD start
  let t := clampQ progress 0 1
  let newPathT := clampQ (lerpQ start.pathT stop.pathT t) 0 1
  { m with cameraPathTarget := newPathT
           cameraPathT := newPathT
           cameraYawOffsetDeg := lerpQ start.yaw stop.yaw t
           cameraPitchOffsetDeg := lerpQ start.pitch stop.pitch t }

def setScatterTarget (v : ℚ) (m : Machine) : Machine :=
  { m with scatterGoal := clampQ v 0 1 }

def setScatterAmplitude (v : ℚ) (syncTarget : Bool) (m : Machine) : Machine :=
  let c := max 0 (min 1 v)
  let m1 := { m with scatterAmp := c }
  if syncTarget then { m1 with scatterGoal := c } else m1

def setMorphProgress (v : ℚ) (m : Machine) : Machine :=
  { m with morphProgress := clampQ v 0 1 }

/-- applyScrollTweenState: pushes the tween state into the group rotation,
scatter amplitude, morph progress, color-mix uniform and the points object's
transform. -/
def applyScrollTweenState (m : Machine) : Machine :=
  let m1 := { m with groupRotY := m.scrollTweenState.rotation }
  let m2 := setScatterAmplitude m1.scrollTweenState.scatter true m1
  let m3 := setMorphProgress m2.scrollTweenState.morph m2
  let m4 := { m3 with colorMixUniform := m3.scrollTweenState.colorMix }
  match m4.points with
  | none => m4
  | some p =>
    { m4 with points := some { p with
              rotX := m4.scrollTweenState.trRotX
              rotY := m4.scrollTweenState.trRotY
              rotZ := m4.scrollTweenState.trRotZ
              scale := m4.scrollTweenState.trScale
              posX := m4.scrollTweenState.trOffX
              posY := m4.scrollTweenState.trOffY
              posZ := m4.scrollTweenState.trOffZ } }

/-- The targets argument of tweenToScrollTargets. -/
structure ScrollTargets where
  rotation : ℚ
  scatter : ℚ
  morph : ℚ
  colorMix : Option ℚ := none
  transform : Option Transform := none
  deriving DecidableEq, Repr

/-- tweenToScrollTargets: early-out when every difference to the current
targets is below 1e-4; otherwise record the new targets, and when `immediate`
also write them into the tween state at once. A non-immediate call starts a
GSAP tween that eases the tween state toward these targets over time (the
time evolution is abstracted; the recorded targets are its fixed point). -/
def tweenToScrollTargets (tg : ScrollTargets) (immediate : Bool) (m : Machine) : Machine :=
  let cur := m.scrollTargetsCurrent
  let rotDiff := |tg.rotation - cur.rotation|
  let scatterDiff := |tg.scatter - cur.scatter|
  let morphDiff := |tg.morph - cur.morph|
  let colorMixDiff := |tg.colorMix.getD 0 - cur.colorMix|
  let transformDiff : ℚ :=
    match tg.transform with
    | none => 0
    | some t => |t.rotX - cur.trRotX| + |t.rotY - cur.trRotY| + |t.rotZ - cur.trRotZ|
        + |t.scale - cur.trScale| + |t.offX - cur.trOffX| + |t.offY - cur.trOffY|
        + |t.offZ - cur.trOffZ|
  if rotDiff < 1/10000 ∧ scatterDiff < 1/10000 ∧ morphDiff < 1/10000 ∧
      colorMixDiff < 1/10000 ∧ transformDiff < 1/10000 then m
  else
    let cur1 := { cur with rotation := tg.rotation, scatter := tg.scatter,
                           morph := tg.morph, colorMix := tg.colorMix.getD 0 }
    let cur2 := match tg.transform with
      | none => cur1
      | some t => { cur1 with trRotX := t.rotX, trRotY := t.rotY, trRotZ := t.rotZ,
                              trScale := t.scale, trOffX := t.offX, trOffY := t.offY, trOffZ := t.offZ }
    let m1 := { m with scrollTargetsCurrent := cur2 }
    if immediate then
      let tw1 := { m1.scrollTweenState with rotation := tg.rotation, scatter := tg.scatter,
                                            morph := tg.morph, colorMix := tg.colorMix.getD 0 }
      let tw2 := match tg.transform with
        | none => tw1
        | some t => { tw1 with trRotX := t.rotX, trRotY := t.rotY, trRotZ := t.rotZ,
                               trScale := t.scale, trOffX := t.offX, trOffY := t.offY, trOffZ := t.offZ }
      applyScrollTweenState { m1 with scrollTweenState := tw2 }
    else m1

/-- THREE.Color.lerp, channelwise. -/
def lerpCol (a b : Col) (t : ℚ) : Col :=
  ⟨a.r + (b.r - a.r) * t, a.g + (b.g - a.g) * t, a.b + (b.b - a.b) * t⟩

/-- setBackgroundGradient: the hex re-validation always passes on model
colors, so this writes the gradient (sky-dome color sync is rendering-only). -/
def setBackgroundGradient (g : Gradient) (m : Machine) : Machine :=
  { m with backgroundGradient := g }

/-- applyBackgroundBlend: blend the gradient from `src` toward `dst` at
clamped t (lerpHexColor clamps again internally, with the same result). -/
def applyBackgroundBlend (v : ℚ) (m : Machine) : Machine :=
  match m.bg.active, m.bg.src, m.bg.dst with
  | true, some s, some d =>
    let t := clampQ v 0 1
    setBackgroundGradient ⟨lerpCol s.top d.top t, lerpCol s.mid d.mid t,
      lerpCol s.bottom d.bottom t⟩ m
  | _, _, _ => m

/-- finishBackgroundBlend: commit jumps to the target colors, non-commit
restores the colors captured when the blend started; either way the blend is
deactivated. Returns the applied colors as well. -/
def finishBackgroundBlend (commit : Bool) (m : Machine) : Machine × Option Gradient :=
  if ¬ m.bg.active then (m, none)
  else
    let step : Machine × Option Gradient :=
      if commit then
        match m.bg.dst with
        | some t => (setBackgroundGradient t m, some t)
        | none => (m, none)
      else
        match m.bg.src with
        | some f => (setBackgroundGradient f m, some f)
        | none => (m, none)
    ({ step.1 with bg := ⟨false, none, none, 0⟩ }, step.2)

/-- startBackgroundBlend: capture the current gradient as the blend source;
a null target finishes any active blend without committing. -/
def startBackgroundBlend (target : Option Gradient) (m : Machine) : Machine :=
  match target with
  | none => (finishBackgroundBlend false m).1
  | some t =>
    let m1 := { m with bg := ⟨true, some m.backgroundGradient, some t, 0⟩ }
    applyBackgroundBlend 0 m1

/-- animateBackgroundBlend: early-out when inactive or (non-immediate) within
1e-4 of the target progress; a non-immediate call starts a GSAP tween driving
the progress to the clamped target while applying the blend (abstracted to its
fixed point). -/
def animateBackgroundBlend (target : ℚ) (immediate : Bool) (m : Machine) : Machine :=
  if ¬ m.bg.active then m
  else
    let c := clampQ target 0 1
    if |m.bg.progress - c| < 1/10000 ∧ ¬ immediate then m
    else
      let m1 := { m with bg := { m.bg with progress := c } }
      applyBackgroundBlend c m1

def setTextOpacityTarget (v : ℚ) (immediate : Bool) (m : Machine) : Machine :=
  let c := clampQ v 0 1
  let m1 := { m with textOpacityTarget := c }
  if immediate then { m1 with textOpacityValue := c } else m1

/-- ensureTextOpacity (immediate defaults to true at every call site). -/
def ensureTextOpacity (v : ℚ) (m : Machine) : Machine :=
  let c := clampQ v 0 1
  if 1/1000 < |m.textOpacityValue - c| then setTextOpacityTarget c true m else m

/-- updateSectionTransition: per-phase application of transition progress to
text opacity, tween targets (rotation / scatter / morph / transform), camera
pose and background blend. -/
def updateSectionTransition (cfg : Config) (m : Machine) : Machine :=
  let currentSection := getSectionByIndex cfg m.index
  let nextSection := m.nextSection.bind fun i => getSectionByIndex cfg (i : ℤ)
  match m.phase with
  | .fadeOut =>
    let eased := easeInOutCubic m.transitionProgress
    let m1 := ensureTextOpacity (1 - eased) m
    let scatterTarget := lerpQ m1.scatterRest SCROLL_SCATTER_PEAK eased
    let rotationTarget := lerpQ m1.rotationStart m1.rotationMid eased
    let morphTarget := if m1.morphReady then eased else 0
    let ct := getSectionTransform currentSection
    let nt := getSectionTransform nextSection
    let itf : Transform := ⟨lerpQ ct.rotX nt.rotX eased, lerpQ ct.rotY nt.rotY eased,
      lerpQ ct.rotZ nt.rotZ eased, lerpQ ct.scale nt.scale eased,
      lerpQ ct.offX nt.offX eased, lerpQ ct.offY nt.offY eased,
      lerpQ ct.offZ nt.offZ eased⟩
    let m2 := tweenToScrollTargets
      ⟨rotationTarget, scatterTarget, morphTarget, some morphTarget, some itf⟩ false m1
    let m3 := updateCameraPose eased m2
    animateBackgroundBlend (eased * (1/2)) false m3
  | .loading =>
    let m1 := ensureTextOpacity 0 m
    let m2 := animateBackgroundBlend (1/2) false m1
    let morphTarget := if m2.morphReady then 1 else 0
    let nt := getSectionTransform nextSection
    let m3 := tweenToScrollTargets
      ⟨m2.rotationMid, SCROLL_SCATTER_PEAK, morphTarget, some morphTarget, some nt⟩ true m2
    updateCameraPose 1 m3
  | .fadeIn =>
    let eased := easeInOutCubic m.transitionProgress
    let m1 := ensureTextOpacity eased m
    let scatterTarget := lerpQ SCROLL_SCATTER_PEAK m1.nextScatterRest eased
    let rotationTarget := lerpQ m1.rotationMid m1.rotationTarget eased
    let morphTarget := if m1.morphReady then 1 else 0
    let nt := getSectionTransform nextSection
    let m2 := tweenToScrollTargets
      ⟨rotationTarget, scatterTarget, morphTarget, some morphTarget, some nt⟩ false m1
    let m3 := updateCameraPose 1 m2
    animateBackgroundBlend (1/2 + eased * (1/2)) false m3
  | _ =>
    let m1 := ensureTextOpacity 1 m
    let ct := getSectionTransform currentSection
    let m2 := tweenToScrollTargets
      ⟨m1.rotationTarget, m1.scatterRest, 0, some 0, some ct⟩ false m1
    let m3 := updateCameraPose 1 m2
    if ¬ m3.bg.active then animateBackgroundBlend 0 true m3 else m3

/-- setPointsMorphTarget: silently no-ops unless the array length matches the
live morphTarget attribute length. -/
def setPointsMorphTarget (arr : List V3) (m : Machine) : Machine :=
  match m.points with
  | none => m
  | some p =>
    if arr.length = p.morphTargetAttr.length
    then { m with points := some { p with morphTargetAttr := arr } } else m

/-- setPointsMorphColor: writes the morphColor attribute on a length match
(the base color attribute is only logged about, not modified). -/
def setPointsMorphColor (arr : List Col) (m : Machine) : Machine :=
  match m.points with
  | none => m
  | some p =>
    match p.morphColorAttr with
    | none => m
    | some mc =>
      if arr.length = mc.length
      then { m with points := some { p with morphColorAttr := some arr } } else m

/-- setPointsPositionArray: writes the base position attribute on a length
match (bounding volume recomputation is rendering-only). -/
def setPointsPositionArray (arr : List V3) (m : Machine) : Machine :=
  match m.points with
  | none => m
  | some p =>
    if arr.length = p.positionAttr.length
    then { m with points := some { p with positionAttr := arr } } else m

/-- refreshAllMorphTargets: recompute the base sample fractions and drop every
cached morph array. -/
def refreshAllMorphTargets (m : Machine) : Machine :=
  { m with
    baseSampleFractions :=
      match m.originalGeom with
      | some g => computeSampleFractions g m.baseVertexCount
      | none => none
    assets := m.assets.map fun a => { a with morphArray := none } }

/-- cancelTransition from main.js. -/
def cancelTransition (cfg : Config) (m : Machine) : Machine :=
  let m1 := { m with phase := .idle, transitionProgress := 0, pendingIndex := m.index,
                     pendingPromise := none, nextSection := none, pendingScrollCarry := 0,
                     groupRotY := m.rotationStart, rotationTarget := m.rotationStart,
                     rotationMid := m.rotationStart, cameraEndPose := m.cameraStartPose }
  let m2 := updateCameraPose 0 m1
  let m3 := updateSectionTransition cfg m2
  let m4 := { m3 with morphReady := false }
  (finishBackgroundBlend false m4).1

/-- beginSectionLoad up to (and including) attaching its then/catch pair to
the pending morph promise; the continuation body runs when the chain resolves
(`resolveLoadF` / `fireDeferredBegin`). When no promise is pending a fresh
`ensureSectionMorphTarget` chain is created, without the swallowing catch that
`startSectionTransition` attaches to its own chain. -/
def beginSectionLoad (cfg : Config) (m : Machine) : Machine :=
  match m.nextSection with
  | none => cancelTransition cfg m
  | some tgt =>
    let m1 := { m with phase := .loading }
    let m2 := updateSectionTransition cfg m1
    match m2.pendingPromise with
    | some lid =>
      { m2 with loads := m2.loads.map fun r =>
                if r.lid = lid then { r with hasBegin := true } else r }
    | none =>
      let lid := m2.nextLoadId
      { m2 with pendingPromise := some lid,
                nextLoadId := lid + 1,
                loads := m2.loads ++ [⟨lid, tgt, true, false, none⟩] }

/-- startSectionTransition from main.js: guards, state snapshot, camera pose
targets, tween-state capture, background blend start, kicking off the
morph-target preload chain, and the synchronous jump to loading when the
initial progress is already ≥ 1 - 1e-4. -/
def startSectionTransition (cfg : Config) (nextIndexArg : ℤ) (direction : ℚ)
    (initialProgress : ℚ) (m : Machine) : Machine :=
  let total := getSectionCount cfg
  if total = 0 then m
  else
    let targetIndex := normalizeSectionIndex cfg nextIndexArg
    if targetIndex = m.index ∧ m.phase ≠ .boot then m
    else
      match getSectionByIndex cfg (targetIndex : ℤ) with
      | none => m
      | some nextSec =>
        let directionSign : ℚ := if 0 ≤ direction then 1 else -1
        let baseTurns := nextSec.spinTurns.getD SECTION_SPIN_TURNS
        let scatterOutV := nextSec.scatterOut.getD SECTION_SCATTER_OUT
        let scatterInV := nextSec.scatterIn.getD SECTION_SCATTER_IN
        let m1 := { m with
          phase := Phase.fadeOut
          phaseElapsed := 0
          transitionElapsed := 0
          pendingIndex := targetIndex
          pendingPromise := none
          direction := directionSign
          nextIndex := targetIndex
          nextSection := some targetIndex
          spinTurns := baseTurns
          rotationStart := m.groupRotY
          rotationMid := m.groupRotY + directionSign * baseTurns * MATH_PI
          rotationTarget := m.groupRotY + directionSign * baseTurns * MATH_PI * 2
          rotationDuration := nextSec.spinDuration.getD SECTION_SPIN_DURATION
          scatterOut := max scatterOutV SCROLL_SCATTER_PEAK
          nextScatterRest := scatterInV
          transitionProgress := clampQ initialProgress 0 1
          pendingScrollCarry := 0
          wheelAccumulator := 0
          morphReady := false }
        let currentPose := getCurrentCameraPose m1
        let endPathT := match nextSec.cameraPathT with
          | some t => clampQ t 0 1
          | none => currentPose.pathT
        let endYaw := nextSec.cameraYaw.getD currentPose.yaw
        let endPitch := nextSec.cameraPitch.getD currentPose.pitch
        let m2 := { m1 with cameraStartPose := some currentPose,
                            cameraEndPose := some ⟨endPathT, endYaw, endPitch⟩ }
        let tw0 := { m2.scrollTweenState with rotation := m2.groupRotY,
                                              scatter := m2.scatterAmp, morph := m2.morphProgress,
                                              colorMix := m2.morphProgress }
        let tw := match m2.points with
          | some p => { tw0 with trRotX := p.rotX, trRotY := p.rotY, trRotZ := p.rotZ,
                                 trScale := p.scale, trOffX := p.posX, trOffY := p.posY,
                                 trOffZ := p.posZ }
          | none => { tw0 with trRotX := 0, trRotY := 0, trRotZ := 0, trScale := 1,
                               trOffX := 0, trOffY := 0, trOffZ := 0 }
        let m3 := { m2 with scrollTweenState := tw, scrollTargetsCurrent := tw }
        let m4 := startBackgroundBlend nextSec.background m3
        let lid := m4.nextLoadId
        let m5 := { m4 with loads := m4.loads ++ [⟨lid, targetIndex, false, true, none⟩],
                            nextLoadId := lid + 1, pendingPromise := some lid }
        let m6 := updateSectionTransition cfg m5
        if 1 - 1/10000 ≤ m6.transitionProgress then beginSectionLoad cfg m6 else m6

/-- The catch branch of beginSectionLoad (abort an in-flight transition on a
morph-load failure): reachable only when the promise it attached to can still
reject, i.e. when the chain lacks the swallowing catch from
startSectionTransition. -/
def abortSectionLoadFailure (cfg : Config) (m : Machine) : Machine :=
  let m1 := { m with phase := .idle, transitionProgress := 0, pendingPromise := none,
                     pendingScrollCarry := 0, morphReady := false }
  let m2 := (finishBackgroundBlend false m1).1
  updateSectionTransition cfg m2

mutual

/-- advanceTransitionProgress, fueled: the fuel bounds the synchronous
completeFadeIn → applyScrollDelta replay recursion, whose real depth never
exceeds two nested calls. -/
def advanceTransitionProgressF (cfg : Config) : ℕ → ℚ → Machine → Machine
  | 0, _, m => m
  | fuel + 1, stepRaw, m =>
    if m.phase ≠ .fadeOut ∧ m.phase ≠ .fadeIn then m
    else
      let direction := if m.direction = 0 then 1 else m.direction
      let signed := stepRaw * direction
      if signed = 0 then updateSectionTransition cfg m
      else if m.phase = .fadeOut then
        let nxt := m.transitionProgress + signed
        if nxt ≤ 0 then cancelTransition cfg m
        else if 1 ≤ nxt then
          let m1 := { m with pendingScrollCarry := m.pendingScrollCarry + max 0 (nxt - 1),
                             transitionProgress := 1 }
          let m2 := updateSectionTransition cfg m1
          beginSectionLoad cfg m2
        else
          let m1 := { m with transitionProgress := clampQ nxt 0 1 }
          updateSectionTransition cfg m1
      else
        let nxt := m.transitionProgress + signed
        if 1 ≤ nxt then
          let m1 := { m with pendingScrollCarry := m.pendingScrollCarry + max 0 (nxt - 1),
                             transitionProgress := 1 }
          let m2 := updateSectionTransition cfg m1
          completeFadeInF cfg fuel m2
        else
          let m1 := { m with transitionProgress := clampQ nxt 0 1 }
          updateSectionTransition cfg m1

/-- completeFadeIn, fueled (it may synchronously replay leftover carry through
applyScrollDelta). -/
def completeFadeInF (cfg : Config) : ℕ → Machine → Machine
  | 0, m => m
  | fuel + 1, m =>
    let activeIdx : Option ℕ :=
      match m.nextSection with
      | some i => some i
      | none => if getSectionCount cfg = 0 then none
                else some (normalizeSectionIndex cfg (m.index : ℤ))
    let m1 := { m with phase := Phase.idle, transitionProgress := 0,
                       pendingPromise := none, nextSection := none,
                       rotationStart := m.groupRotY, rotationTarget := m.groupRotY,
                       rotationMid := m.groupRotY }
    let endPose := m1.cameraEndPose.getD (getCurrentCameraPose m1)
    let m2 := { m1 with cameraStartPose := some endPose, cameraEndPose := some endPose,
                        cameraPathTarget := clampQ endPose.pathT 0 1,
                        cameraPathT := clampQ endPose.pathT 0 1,
                        cameraYawOffsetDeg := endPose.yaw,
                        cameraPitchOffsetDeg := endPose.pitch }
    let m3 := setCameraYawOffset endPose.yaw m2
    let m4 := setCameraPitchOffset endPose.pitch m3
    let m5 := updateSectionTransition cfg m4
    let m6 := (finishBackgroundBlend true m5).1
    let m7 :=
      match activeIdx with
      | none => m6
      | some ai =>
        let asset := getAsset m6 ai
        let mA :=
          match asset.morphArray with
          | none => m6
          | some arr =>
            let mB := setPointsPositionArray arr m6
            let mC :=
              match asset.geometry with
              | none => mB
              | some geomA =>
                let mC1 :=
                  match mB.points with
                  | some p => { mB with baseVertexCount := p.positionAttr.length }
                  | none => mB
                let mC2 := { mC1 with originalGeom := some geomA }
                refreshAllMorphTargets mC2
            let mD :=
              match mC.points with
              | none => mC
              | some p =>
                let mD1 := setAsset mC ai { getAsset mC ai with morphArray := some p.positionAttr }
                setPointsMorphTarget p.positionAttr mD1
            let mE :=
              match mD.points with
              | none => mD
              | some p =>
                match p.morphColorAttr, p.colorAttr with
                | some mc, some c =>
                  if c.length = mc.length
                  then { mD with points := some { p with colorAttr := some mc } }
                  else mD
                | _, _ => mD
            let mF := setMorphProgress 0 mE
            { mF with morphUniformValue := 0 }
        { mA with currentSectionId := some ai }
    let tw := { m7.scrollTweenState with rotation := m7.groupRotY,
                                         scatter := m7.scatterRest, morph := 0, colorMix := 0 }
    let m8 := { m7 with scrollTweenState := tw,
                        scrollTargetsCurrent := { m7.scrollTargetsCurrent with
                        rotation := tw.rotation, scatter := tw.scatter, morph := 0,
                        colorMix := 0 } }
    let m9 := applyScrollTweenState m8
    let leftover := m9.pendingScrollCarry
    let m10 := { m9 with pendingScrollCarry := 0 }
    if 1/10000 < leftover then
      applyScrollDeltaF cfg fuel (leftover * SCROLL_PROGRESS_SCALE * m10.direction) false m10
    else m10

/-- applyScrollDelta, fueled. -/
def applyScrollDeltaF (cfg : Config) : ℕ → ℚ → Bool → Machine → Machine
  | 0, _, _, m => m
  | fuel + 1, delta, isTouch, m =>
    if ¬ m.isReady then m
    else
      let progressScale := if isTouch then TOUCH_PROGRESS_SCALE else SCROLL_PROGRESS_SCALE
      let threshold := if isTouch then TOUCH_TRIGGER_THRESHOLD else SCROLL_TRIGGER_THRESHOLD
      let normalized := delta / progressScale
      if m.phase = .fadeOut ∨ m.phase = .fadeIn then
        advanceTransitionProgressF cfg fuel normalized m
      else if m.phase = .loading then
        let direction := if m.direction = 0 then 1 else m.direction
        let carry := normalized * direction
        if 0 < carry then { m with pendingScrollCarry := m.pendingScrollCarry + carry }
        else m
      else
        let acc := m.wheelAccumulator + delta
        let m1 := { m with wheelAccumulator := acc }
        if threshold ≤ |acc| then
          let direction : ℚ := if 0 < acc then 1 else -1
          let overshoot := acc - direction * threshold
          let progressRaw := |overshoot| / progressScale
          let initialProgress := min 1 progressRaw
          let carry := max 0 (progressRaw - initialProgress)
          let m2 := { m1 with wheelAccumulator := 0 }
          let m3 := startSectionTransition cfg
            ((m2.index : ℤ) + (if 0 < acc then 1 else -1)) direction initialProgress m2
          if 0 < carry then { m3 with pendingScrollCarry := carry } else m3
        else m1

end

/-- The continuation attached by beginSectionLoad (its then branch, lines
994-1021 of main.js). It runs whenever the chain it is attached to resolves —
including with the value `false` produced by the swallowing catch of
startSectionTransition after a failed load. -/
def beginThenCallback (cfg : Config) (fuel : ℕ) (m : Machine) : Machine :=
  let wasMorphReady := m.morphReady
  let m1 := { m with morphReady := true }
  let currentProgress := m1.transitionProgress
  let m2 := if ¬ wasMorphReady ∧ 0 < currentProgress ∧
      (m1.phase = .fadeOut ∨ m1.phase = .fadeIn)
    then setMorphProgress (easeInOutCubic currentProgress) m1
    else m1
  let m3 := updateSectionTransition cfg m2
  let m4 := { m3 with index := m3.nextIndex }
  let m5 := { m4 with scatterRest := m4.nextScatterRest }
  let tp := min 1 m5.pendingScrollCarry
  let m6 := { m5 with transitionProgress := tp,
                      pendingScrollCarry := max 0 (m5.pendingScrollCarry - tp),
                      phase := Phase.fadeIn }
  let m7 := ensureTextOpacity 0 m6
  let m8 := updateSectionTransition cfg m7
  if 1 - 1/10000 ≤ m8.transitionProgress then completeFadeInF cfg fuel m8 else m8

/-- The then branch of ensureSectionMorphTarget once the geometry is
available: regenerate the sample fractions from the target geometry, build the
morph arrays, store them into the asset cache and the live morphTarget /
morphColor attributes, and record the current model path. The Bool is false
when any step nulls out, which rejects the chain. -/
def morphTargetStep (cfg : Config) (targetIdx : ℕ) (g : Geom) (m : Machine) :
    Machine × Bool :=
  match m.points with
  | none => (m, false)
  | some p =>
    let morphCount := p.morphTargetAttr.length
    match computeSampleFractions g morphCount with
    | none => (m, false)
    | some fractions =>
      match generateMorphTargetArrayWithFractions morphCount g fractions with
      | none => (m, false)
      | some arr =>
        let m1 := setAsset m targetIdx { getAsset m targetIdx with morphArray := some arr }
        let m2 := setPointsMorphTarget arr m1
        let m3 :=
          match generateMorphColorArrayWithFractions morphCount g fractions with
          | some cols => setPointsMorphColor cols m2
          | none => m2
        let m4 :=
          match getSectionByIndex cfg (targetIdx : ℤ) with
          | some s => { m3 with currentModelPath := some s.modelPath }
          | none => m3
        (m4, true)

/-- Resolution of an outstanding load chain `lid` with loader outcome `o`
(none = network/parse failure). ensureSectionGeometry resolves from the asset
cache when populated (a cached geometry never fails); a fresh load stores its
geometry in the cache. Afterwards the chain continuations run in attachment
order: ensureSectionMorphTarget's then, the swallowing then/catch from
startSectionTransition (when attached), and beginSectionLoad's continuation
(when attached); without the latter, the chain value is recorded so a later
beginSectionLoad attach fires `fireDeferredBegin`. -/
def resolveLoadF (cfg : Config) (fuel : ℕ) (lid : ℕ) (o : Option Geom) (m : Machine) :
    Machine :=
  match m.loads.find? (fun r => r.lid = lid) with
  | none => m
  | some lr =>
    if lr.outcome ≠ none then m
    else
      let cached := (getAsset m lr.target).geometry
      let gRes : Option Geom := match cached with
        | some g0 => some g0
        | none => o
      match gRes with
      | some g =>
        let m1 := if cached = none
          then setAsset m lr.target { getAsset m lr.target with geometry := some g }
          else m
        let step := morphTargetStep cfg lr.target g m1
        let m2 := step.1
        let ok := step.2
        let m3 := if lr.swallow then { m2 with morphReady := ok } else m2
        if lr.hasBegin then
          let m4 := { m3 with loads := m3.loads.filter fun r => r.lid ≠ lid }
          if lr.swallow ∨ ok then beginThenCallback cfg fuel m4
          else abortSectionLoadFailure cfg m4
        else
          { m3 with loads := m3.loads.map fun r =>
                    if r.lid = lid then { r with outcome := some ok } else r }
      | none =>
        let m1 := if lr.swallow then { m with morphReady := false } else m
        if lr.hasBegin then
          let m2 := { m1 with loads := m1.loads.filter fun r => r.lid ≠ lid }
          if lr.swallow then beginThenCallback cfg fuel m2
          else abortSectionLoadFailure cfg m2
        else
          { m1 with loads := m1.loads.map fun r =>
                    if r.lid = lid then { r with outcome := some false } else r }

/-- The deferred microtask that runs beginSectionLoad's continuation when it
was attached to an already-resolved chain. -/
def fireDeferredBegin (cfg : Config) (fuel : ℕ) (lid : ℕ) (m : Machine) : Machine :=
  match m.loads.find? (fun r => r.lid = lid) with
  | none => m
  | some lr =>
    match lr.outcome with
    | none => m
    | some _ =>
      if lr.hasBegin then
        let m1 := { m with loads := m.loads.filter fun r => r.lid ≠ lid }
        beginThenCallback cfg fuel m1
      else m

/-- Default fuel for the synchronous-call entry points; the real synchronous
recursion depth through completeFadeIn's carry replay is at most two, so this
fuel is never exhausted on executions of the modelled program. -/
def scrollFuel : ℕ := 9

def applyScrollDelta (cfg : Config) (delta : ℚ) (isTouch : Bool) (m : Machine) : Machine :=
  applyScrollDeltaF cfg scrollFuel delta isTouch m

def advanceTransitionProgress (cfg : Config) (stepRaw : ℚ) (m : Machine) : Machine :=
  advanceTransitionProgressF cfg scrollFuel stepRaw m

def completeFadeIn (cfg : Config) (m : Machine) : Machine :=
  completeFadeInF cfg scrollFuel m

def resolveLoad (cfg : Config) (lid : ℕ) (o : Option Geom) (m : Machine) : Machine :=
  resolveLoadF cfg scrollFuel lid o m

/-! Resampler lemmas (claims C7 and C8). -/

lemma sampleIndex_le_sub_one (S K i : ℕ) : sampleIndex S K i ≤ S - 1 := by
  unfold sampleIndex
  dsimp only
  split
  · exact le_refl _
  · next h =>
    push_neg at h
    omega

lemma sampleIndex_mono (S K : ℕ) {i j : ℕ} (hij : i ≤ j) (hj : j < K) :
    sampleIndex S K i ≤ sampleIndex S K j := by
  by_cases hj1 : j = K - 1 ∨ S ≤ j * S / K
  · have h2 : sampleIndex S K j = S - 1 := by
      unfold sampleIndex
      dsimp only
      rw [if_pos hj1]
    rw [h2]
    exact sampleIndex_le_sub_one S K i
  · push_neg at hj1
    have hi1 : ¬ (i = K - 1 ∨ S ≤ i * S / K) := by
      push_neg
      constructor
      · intro hik
        have : j * S / K < S := hj1.2
        omega
      · have hdiv : i * S / K ≤ j * S / K :=
          Nat.div_le_div_right (Nat.mul_le_mul_right S hij)
        have : j * S / K < S := hj1.2
        omega
    unfold sampleIndex
    dsimp only
    rw [if_neg hi1, if_neg (by push_neg; exact hj1)]
    exact Nat.div_le_div_right (Nat.mul_le_mul_right S hij)

lemma srcDenom_pos (S : ℕ) : 0 < srcDenom S := by
  unfold srcDenom
  omega

lemma sampleFraction_nonneg (S K i : ℕ) : 0 ≤ sampleFraction S K i := by
  unfold sampleFraction
  positivity

lemma sampleFraction_le_one (S K i : ℕ) : sampleFraction S K i ≤ 1 := by
  unfold sampleFraction
  apply div_le_one_of_le
  · have h1 : sampleIndex S K i ≤ srcDenom S := by
      have := sampleIndex_le_sub_one S K i
      unfold srcDenom
      omega
    exact_mod_cast h1
  · positivity

lemma getD_map_range {α : Type} (f : ℕ → α) (d : α) (n i : ℕ) (h : i < n) :
    ((List.range n).map f).getD i d = f i := by
  rw [List.getD_eq_getElem?_getD]
  rw [List.getElem?_map]
  rw [List.getElem?_range h]
  rfl

lemma computeSampleFractionsCore_getD (S K i : ℕ) (h : i < K) :
    (computeSampleFractionsCore S K).getD i 0 = sampleFraction S K i := by
  unfold computeSampleFractionsCore
  exact getD_map_range _ _ _ _ h

/-- C7: for keepCount ≥ 1 and sourceCount ≥ 1, the fraction table has length
keepCount, all entries lie in [0,1] and are monotone, the last entry is 1 when
sourceCount > 1 and 0 when sourceCount = 1, slot i maps to source index
floor(i*sourceCount/keepCount) with the last slot clamped to sourceCount-1,
and the guarded wrapper returns exactly this table. -/
theorem C7_computeSampleFractions_spec (S K : ℕ) (hS : 1 ≤ S) (hK : 1 ≤ K) :
    (computeSampleFractionsCore S K).length = K
    ∧ (∀ q ∈ computeSampleFractionsCore S K, 0 ≤ q ∧ q ≤ 1)
    ∧ (∀ i j, i ≤ j → j < K →
        (computeSampleFractionsCore S K).getD i 0 ≤ (computeSampleFractionsCore S K).getD j 0)
    ∧ (1 < S → (computeSampleFractionsCore S K).getD (K - 1) 0 = 1)
    ∧ (S = 1 → (computeSampleFractionsCore S K).getD (K - 1) 0 = 0)
    ∧ (∀ i, i < K → sampleIndex S K i = if i = K - 1 then S - 1 else i * S / K)
    ∧ (∀ g : Geom, g.positions.length = S →
        computeSampleFractions g K = some (computeSampleFractionsCore S K)) := by
  refine ⟨?_, ?_, ?_, ?_, ?_, ?_, ?_⟩
  · unfold computeSampleFractionsCore
    simp
  · intro q hq
    unfold computeSampleFractionsCore at hq
    simp only [List.mem_map, List.mem_range] at hq
    obtain ⟨i, -, rfl⟩ := hq
    exact ⟨sampleFraction_nonneg S K i, sampleFraction_le_one S K i⟩
  · intro i j hij hj
    rw [computeSampleFractionsCore_getD S K i (lt_of_le_of_lt hij hj),
      computeSampleFractionsCore_getD S K j hj]
    unfold sampleFraction
    have hmono : (sampleIndex S K i : ℚ) ≤ (sampleIndex S K j : ℚ) := by
      exact_mod_cast sampleIndex_mono S K hij hj
    have hd : (0 : ℚ) < (srcDenom S : ℚ) := by exact_mod_cast srcDenom_pos S
    exact (div_le_div_iff_of_pos_right hd).mpr hmono
  · intro hS1
    rw [computeSampleFractionsCore_getD S K (K - 1) (by omega)]
    unfold sampleFraction
    have hidx : sampleIndex S K (K - 1) = S - 1 := by
      unfold sampleIndex
      dsimp only
      rw [if_pos (Or.inl rfl)]
    rw [hidx]
    have hden : srcDenom S = S - 1 := by
      unfold srcDenom
      omega
    rw [hden]
    exact div_self (Nat.cast_ne_zero.mpr (by omega : S - 1 ≠ 0))
  · intro hS1
    rw [computeSampleFractionsCore_getD S K (K - 1) (by omega)]
    unfold sampleFraction
    have hidx : sampleIndex S K (K - 1) = 0 := by
      have := sampleIndex_le_sub_one S K (K - 1)
      omega
    rw [hidx]
    simp
  · intro i hi
    by_cases hik : i = K - 1
    · rw [if_pos hik]
      unfold sampleIndex
      dsimp only
      rw [if_pos (Or.inl hik)]
    · rw [if_neg hik]
      unfold sampleIndex
      dsimp only
      rw [if_neg]
      push_neg
      refine ⟨hik, ?_⟩
      have h1 : i * S < K * S :=
        Nat.mul_lt_mul_of_lt_of_le hi (le_refl S) (by omega)
      have : i * S / K < S := by
        rw [Nat.div_lt_iff_lt_mul (by omega : 0 < K)]
        calc i * S < K * S := h1
          _ = S * K := Nat.mul_comm K S
      omega
  · intro g hg
    unfold computeSampleFractions
    rw [if_neg (by omega), hg]

lemma clampQ_of_mem {f : ℚ} (h0 : 0 ≤ f) (h1 : f ≤ 1) : clampQ f 0 1 = f := by
  unfold clampQ
  rw [min_eq_right h1, max_eq_right h0]

lemma jround_natCast (n : ℕ) : jround (n : ℚ) = n := by
  unfold jround
  have h : ((n : ℚ) + 1/2) = 1/2 + (n : ℤ) := by
    push_cast
    ring
  rw [h, Int.floor_add_int]
  norm_num

lemma resampleIndexRaw_fraction (S K i : ℕ) (hS : 1 ≤ S) :
    resampleIndexRaw S (sampleFraction S K i) = sampleIndex S K i := by
  have hidx := sampleIndex_le_sub_one S K i
  rcases eq_or_lt_of_le hS with hS1 | hS2
  · -- S = 1
    have hS1' : S = 1 := hS1.symm
    subst hS1'
    have h0 : sampleIndex 1 K i = 0 := by omega
    have hfr : sampleFraction 1 K i = 0 := by
      unfold sampleFraction srcDenom
      rw [h0]
      norm_num
    rw [hfr, h0]
    unfold resampleIndexRaw
    dsimp only
    norm_num
    unfold jround
    norm_num
  · -- 2 ≤ S
    have hden : srcDenom S = S - 1 := by
      unfold srcDenom
      omega
    have hdQ : ((S - 1 : ℕ) : ℚ) ≠ 0 := by
      exact_mod_cast Nat.cast_ne_zero.mpr (by omega : S - 1 ≠ 0)
    unfold resampleIndexRaw sampleFraction
    dsimp only
    rw [hden]
    have hprod : (sampleIndex S K i : ℚ) / ((S - 1 : ℕ) : ℚ) * ((S : ℚ) - 1)
        = (sampleIndex S K i : ℚ) := by
      have hcast : ((S : ℚ) - 1) = ((S - 1 : ℕ) : ℚ) := by
        push_cast [hS]
        ring
      rw [hcast]
      exact div_mul_cancel₀ _ hdQ
    rw [hprod, jround_natCast]
    rw [if_neg (show ¬ ((sampleIndex S K i : ℤ) < 0) by omega)]
    rw [if_neg (show ¬ ((S : ℤ) ≤ (sampleIndex S K i : ℤ)) by omega)]
    simp

lemma resampleIndex_fraction (S K i : ℕ) (hS : 1 ≤ S) :
    resampleIndex S (sampleFraction S K i) = sampleIndex S K i := by
  have hcl : clampQ (sampleFraction S K i) 0 1 = sampleFraction S K i :=
    clampQ_of_mem (sampleFraction_nonneg S K i) (sampleFraction_le_one S K i)
  have := resampleIndexRaw_fraction S K i hS
  unfold resampleIndex
  unfold resampleIndexRaw at this
  rw [hcl]
  exact this

lemma generate_fractions_self (A : Geom) (K : ℕ) (hS : 1 ≤ A.positions.length) :
    generateMorphTargetArrayWithFractions K A
      (computeSampleFractionsCore A.positions.length K)
    = some ((List.range K).map fun i =>
        A.positions.getD (sampleIndex A.positions.length K i) v3zero) := by
  unfold generateMorphTargetArrayWithFractions
  rw [if_neg (by simp [computeSampleFractionsCore])]
  rw [if_neg (by omega : ¬ A.positions.length = 0)]
  congr 1
  unfold computeSampleFractionsCore
  rw [List.map_map]
  apply List.map_congr_left
  intro i hi
  simp only [Function.comp_apply]
  rw [resampleIndex_fraction A.positions.length K i hS]

/-- C8: downsampling cloud A and resampling A itself by the produced sample
fractions reproduces the downsampled positions exactly: inside
createPointGeometry the morph array for target A equals the base positions,
and generateMorphTargetArrayWithFractions on the produced fractions returns
the base positions again. -/
theorem C8_selfResample_roundTrip (A : Geom) (ratio : ℚ) (r : PointGeomResult)
    (h : createPointGeometry A (some A) ratio = some r) :
    r.morphArray = r.positions
    ∧ generateMorphTargetArrayWithFractions r.keepCount A r.sampleFractions
        = some r.positions := by
  by_cases hS0 : A.positions.length = 0
  · unfold createPointGeometry at h
    rw [if_pos hS0] at h
    exact Option.noConfusion h
  · have hS : 1 ≤ A.positions.length := by omega
    unfold createPointGeometry at h
    rw [if_neg hS0] at h
    simp only [Option.some.injEq] at h
    subst h
    constructor
    · simp only
      rw [if_neg hS0]
      apply List.map_congr_left
      intro i hi
      simp only [List.mem_range] at hi
      rw [computeSampleFractionsCore_getD _ _ _ hi,
        resampleIndexRaw_fraction A.positions.length _ i hS]
    · simp only
      have hgen := generate_fractions_self A
        (if (999 : ℚ)/1000 ≤ ratio then A.positions.length
         else max 1 (⌊(A.positions.length : ℚ) * ratio⌋.toNat)) hS
      rw [hgen]

/-! State-machine frame lemmas: the rendering-facing helpers only write
text opacity, tween state, camera offsets, scatter, morph progress and
background blend values; the section-state core below is untouched by them. -/

/-- The geometry attributes of a points object (transform excluded). -/
def attrsOf (p : Points) : List V3 × List V3 × Option (List Col) × Option (List Col) :=
  (p.positionAttr, p.morphTargetAttr, p.colorAttr, p.morphColorAttr)

/-- The section-state core: every Machine field that the per-frame
presentation helpers never write. -/
structure CoreView where
  index : ℕ
  phase : Phase
  phaseElapsed : ℚ
  transitionElapsed : ℚ
  rotationStart : ℚ
  rotationMid : ℚ
  rotationTarget : ℚ
  rotationDuration : ℚ
  wheelAccumulator : ℚ
  pendingIndex : ℕ
  pendingPromise : Option ℕ
  scatterRest : ℚ
  spinTurns : ℚ
  isReady : Bool
  direction : ℚ
  nextIndex : ℕ
  nextSection : Option ℕ
  transitionProgress : ℚ
  pendingScrollCarry : ℚ
  scatterOut : ℚ
  nextScatterRest : ℚ
  morphReady : Bool
  cameraStartPose : Option Pose
  cameraEndPose : Option Pose
  assets : List Asset
  loads : List LoadRec
  nextLoadId : ℕ
  baseSampleFractions : Option (List ℚ)
  baseVertexCount : ℕ
  originalGeom : Option Geom
  currentModelPath : Option ℕ
  currentSectionId : Option ℕ
  pointsAttrs : Option (List V3 × List V3 × Option (List Col) × Option (List Col))

def coreOf (m : Machine) : CoreView :=
  ⟨m.index, m.phase, m.phaseElapsed, m.transitionElapsed, m.rotationStart,
   m.rotationMid, m.rotationTarget, m.rotationDuration, m.wheelAccumulator,
   m.pendingIndex, m.pendingPromise, m.scatterRest, m.spinTurns, m.isReady,
   m.direction, m.nextIndex, m.nextSection, m.transitionProgress,
   m.pendingScrollCarry, m.scatterOut, m.nextScatterRest, m.morphReady,
   m.cameraStartPose, m.cameraEndPose, m.assets, m.loads, m.nextLoadId,
   m.baseSampleFractions, m.baseVertexCount, m.originalGeom,
   m.currentModelPath, m.currentSectionId, m.points.map attrsOf⟩

lemma eto_core (v : ℚ) (m : Machine) : coreOf (ensureTextOpacity v m) = coreOf m := by
  unfold ensureTextOpacity setTextOpacityTarget
  dsimp only
  repeat' split
  all_goals rfl

lemma asts_core (m : Machine) : coreOf (applyScrollTweenState m) = coreOf m := by
  unfold applyScrollTweenState setScatterAmplitude setMorphProgress
  dsimp only
  repeat' split
  all_goals simp_all [coreOf, attrsOf]

lemma tts_core (tg : ScrollTargets) (imm : Bool) (m : Machine) :
    coreOf (tweenToScrollTargets tg imm m) = coreOf m := by
  unfold tweenToScrollTargets
  dsimp only
  repeat' split
  all_goals first
  | rfl
  | (rw [asts_core]; rfl)

lemma ucp_core (t : ℚ) (m : Machine) : coreOf (updateCameraPose t m) = coreOf m := by
  unfold updateCameraPose
  rfl

lemma abb_core (t : ℚ) (imm : Bool) (m : Machine) :
    coreOf (animateBackgroundBlend t imm m) = coreOf m := by
  unfold animateBackgroundBlend applyBackgroundBlend setBackgroundGradient
  dsimp only
  repeat' split
  all_goals rfl

lemma ust_core (cfg : Config) (m : Machine) :
    coreOf (updateSectionTransition cfg m) = coreOf m := by
  unfold updateSectionTransition
  dsimp only
  split
  · rw [abb_core, ucp_core, tts_core, eto_core]
  · rw [ucp_core, tts_core, abb_core, eto_core]
  · rw [abb_core, ucp_core, tts_core, eto_core]
  · split
    · rw [abb_core, ucp_core, tts_core, eto_core]
    · rw [ucp_core, tts_core, eto_core]

lemma fbb_core (c : Bool) (m : Machine) :
    coreOf (finishBackgroundBlend c m).1 = coreOf m := by
  unfold finishBackgroundBlend setBackgroundGradient
  dsimp only
  repeat' split
  all_goals rfl

lemma sbb_core (t : Option Gradient) (m : Machine) :
    coreOf (startBackgroundBlend t m) = coreOf m := by
  unfold startBackgroundBlend applyBackgroundBlend setBackgroundGradient
  dsimp only
  repeat' split
  all_goals first
  | rfl
  | (rw [fbb_core])

lemma scy_core (d : ℚ) (m : Machine) : coreOf (setCameraYawOffset d m) = coreOf m := rfl

lemma scp_core (d : ℚ) (m : Machine) : coreOf (setCameraPitchOffset d m) = coreOf m := rfl


/-- The camera-offset globals written by updateCameraPose. -/
def camOf (m : Machine) : ℚ × ℚ × ℚ × ℚ :=
  (m.cameraPathT, m.cameraPathTarget, m.cameraYawOffsetDeg, m.cameraPitchOffsetDeg)

/-- The background-blend bookkeeping other than its progress. -/
def bgOf (m : Machine) : Bool × Option Gradient × Option Gradient :=
  (m.bg.active, m.bg.src, m.bg.dst)

lemma eto_cam (v : ℚ) (m : Machine) : camOf (ensureTextOpacity v m) = camOf m := by
  unfold ensureTextOpacity setTextOpacityTarget
  dsimp only
  repeat' split
  all_goals rfl

lemma tts_cam (tg : ScrollTargets) (imm : Bool) (m : Machine) :
    camOf (tweenToScrollTargets tg imm m) = camOf m := by
  unfold tweenToScrollTargets applyScrollTweenState setScatterAmplitude setMorphProgress
  dsimp only
  repeat' split
  all_goals rfl

lemma abb_cam (t : ℚ) (imm : Bool) (m : Machine) :
    camOf (animateBackgroundBlend t imm m) = camOf m := by
  unfold animateBackgroundBlend applyBackgroundBlend setBackgroundGradient
  dsimp only
  repeat' split
  all_goals rfl

lemma fbb_cam (c : Bool) (m : Machine) : camOf (finishBackgroundBlend c m).1 = camOf m := by
  unfold finishBackgroundBlend setBackgroundGradient
  dsimp only
  repeat' split
  all_goals rfl

lemma eto_rot (v : ℚ) (m : Machine) : (ensureTextOpacity v m).groupRotY = m.groupRotY := by
  unfold ensureTextOpacity setTextOpacityTarget
  dsimp only
  repeat' split
  all_goals rfl

lemma ttsNI_rot (tg : ScrollTargets) (m : Machine) :
    (tweenToScrollTargets tg false m).groupRotY = m.groupRotY := by
  unfold tweenToScrollTargets
  dsimp only
  repeat' split
  all_goals first
  | rfl
  | simp_all

lemma ucp_rot (t : ℚ) (m : Machine) : (updateCameraPose t m).groupRotY = m.groupRotY := rfl

lemma abb_rot (t : ℚ) (imm : Bool) (m : Machine) :
    (animateBackgroundBlend t imm m).groupRotY = m.groupRotY := by
  unfold animateBackgroundBlend applyBackgroundBlend setBackgroundGradient
  dsimp only
  repeat' split
  all_goals rfl

lemma fbb_rot (c : Bool) (m : Machine) :
    (finishBackgroundBlend c m).1.groupRotY = m.groupRotY := by
  unfold finishBackgroundBlend setBackgroundGradient
  dsimp only
  repeat' split
  all_goals rfl

lemma eto_bg (v : ℚ) (m : Machine) : bgOf (ensureTextOpacity v m) = bgOf m := by
  unfold ensureTextOpacity setTextOpacityTarget
  dsimp only
  repeat' split
  all_goals rfl

lemma tts_bg (tg : ScrollTargets) (imm : Bool) (m : Machine) :
    bgOf (tweenToScrollTargets tg imm m) = bgOf m := by
  unfold tweenToScrollTargets applyScrollTweenState setScatterAmplitude setMorphProgress
  dsimp only
  repeat' split
  all_goals rfl

lemma ucp_bg (t : ℚ) (m : Machine) : bgOf (updateCameraPose t m) = bgOf m := rfl

lemma abb_bg (t : ℚ) (imm : Bool) (m : Machine) :
    bgOf (animateBackgroundBlend t imm m) = bgOf m := by
  unfold animateBackgroundBlend applyBackgroundBlend setBackgroundGradient
  dsimp only
  repeat' split
  all_goals rfl

lemma ust_bg (cfg : Config) (m : Machine) :
    bgOf (updateSectionTransition cfg m) = bgOf m := by
  unfold updateSectionTransition
  dsimp only
  split
  · rw [abb_bg, ucp_bg, tts_bg, eto_bg]
  · rw [ucp_bg, tts_bg, abb_bg, eto_bg]
  · rw [abb_bg, ucp_bg, tts_bg, eto_bg]
  · split
    · rw [abb_bg, ucp_bg, tts_bg, eto_bg]
    · rw [ucp_bg, tts_bg, eto_bg]

lemma ust_rot (cfg : Config) (m : Machine) (h : m.phase ≠ .loading) :
    (updateSectionTransition cfg m).groupRotY = m.groupRotY := by
  unfold updateSectionTransition
  dsimp only
  split
  · rw [abb_rot, ucp_rot, ttsNI_rot, eto_rot]
  · next heq => exact absurd heq h
  · rw [abb_rot, ucp_rot, ttsNI_rot, eto_rot]
  · split
    · rw [abb_rot, ucp_rot, ttsNI_rot, eto_rot]
    · rw [ucp_rot, ttsNI_rot, eto_rot]

lemma clampQ_eq_self {v lo hi : ℚ} (h1 : lo ≤ v) (h2 : v ≤ hi) : clampQ v lo hi = v := by
  unfold clampQ
  rw [min_eq_right h2, max_eq_right h1]

lemma lerpQ_self (a t : ℚ) : lerpQ a a t = a := by
  unfold lerpQ
  ring

lemma ucp_cam_of_poses (t : ℚ) (m : Machine) (p q : Pose)
    (h1 : m.cameraStartPose = some p) (h2 : m.cameraEndPose = some q) :
    camOf (updateCameraPose t m) =
      (clampQ (lerpQ p.pathT q.pathT (clampQ t 0 1)) 0 1,
       clampQ (lerpQ p.pathT q.pathT (clampQ t 0 1)) 0 1,
       lerpQ p.yaw q.yaw (clampQ t 0 1),
       lerpQ p.pitch q.pitch (clampQ t 0 1)) := by
  unfold updateCameraPose
  rw [h1, h2]
  rfl

lemma eto_poses (v : ℚ) (m : Machine) :
    (ensureTextOpacity v m).cameraStartPose = m.cameraStartPose
    ∧ (ensureTextOpacity v m).cameraEndPose = m.cameraEndPose :=
  ⟨congrArg CoreView.cameraStartPose (eto_core v m),
   congrArg CoreView.cameraEndPose (eto_core v m)⟩

lemma tts_poses (tg : ScrollTargets) (imm : Bool) (m : Machine) :
    (tweenToScrollTargets tg imm m).cameraStartPose = m.cameraStartPose
    ∧ (tweenToScrollTargets tg imm m).cameraEndPose = m.cameraEndPose :=
  ⟨congrArg CoreView.cameraStartPose (tts_core tg imm m),
   congrArg CoreView.cameraEndPose (tts_core tg imm m)⟩

lemma abb_poses (t : ℚ) (imm : Bool) (m : Machine) :
    (animateBackgroundBlend t imm m).cameraStartPose = m.cameraStartPose
    ∧ (animateBackgroundBlend t imm m).cameraEndPose = m.cameraEndPose :=
  ⟨congrArg CoreView.cameraStartPose (abb_core t imm m),
   congrArg CoreView.cameraEndPose (abb_core t imm m)⟩

/-- When the pose snapshots have collapsed to one pose, every per-frame
camera update (any phase, any progress) writes exactly that pose back. -/
lemma ust_cam_fixed (cfg : Config) (m : Machine) (p : Pose)
    (h1 : m.cameraStartPose = some p) (h2 : m.cameraEndPose = some p) :
    camOf (updateSectionTransition cfg m) =
      (clampQ p.pathT 0 1, clampQ p.pathT 0 1, p.yaw, p.pitch) := by
  have hcam : ∀ (t : ℚ) (M : Machine), M.cameraStartPose = some p →
      M.cameraEndPose = some p →
      camOf (updateCameraPose t M) = (clampQ p.pathT 0 1, clampQ p.pathT 0 1, p.yaw, p.pitch) := by
    intro t M hs he
    rw [ucp_cam_of_poses t M p p hs he, lerpQ_self, lerpQ_self, lerpQ_self]
  unfold updateSectionTransition
  dsimp only
  split
  · rw [abb_cam]
    refine hcam _ _ ?_ ?_
    · rw [(tts_poses _ _ _).1, (eto_poses _ _).1]
      exact h1
    · rw [(tts_poses _ _ _).2, (eto_poses _ _).2]
      exact h2
  · refine hcam _ _ ?_ ?_
    · rw [(tts_poses _ _ _).1, (abb_poses _ _ _).1, (eto_poses _ _).1]
      exact h1
    · rw [(tts_poses _ _ _).2, (abb_poses _ _ _).2, (eto_poses _ _).2]
      exact h2
  · rw [abb_cam]
    refine hcam _ _ ?_ ?_
    · rw [(tts_poses _ _ _).1, (eto_poses _ _).1]
      exact h1
    · rw [(tts_poses _ _ _).2, (eto_poses _ _).2]
      exact h2
  · split
    · rw [abb_cam]
      refine hcam _ _ ?_ ?_
      · rw [(tts_poses _ _ _).1, (eto_poses _ _).1]
        exact h1
      · rw [(tts_poses _ _ _).2, (eto_poses _ _).2]
        exact h2
    · refine hcam _ _ ?_ ?_
      · rw [(tts_poses _ _ _).1, (eto_poses _ _).1]
        exact h1
      · rw [(tts_poses _ _ _).2, (eto_poses _ _).2]
        exact h2


lemma fbb_restore (m : Machine) (g : Gradient)
    (hba : m.bg.active = true) (hbs : m.bg.src = some g) :
    (finishBackgroundBlend false m).1
      = { m with backgroundGradient := g, bg := ⟨false, none, none, 0⟩ } := by
  simp [finishBackgroundBlend, setBackgroundGradient, hba, hbs]

/-- The tail of cancelTransition, for an arbitrary already-reset machine M. -/
lemma cancel_tail_spec (cfg : Config) (M : Machine) (p : Pose) (g : Gradient)
    (hph : M.phase = Phase.idle)
    (hsp : M.cameraStartPose = some p) (hep : M.cameraEndPose = some p)
    (hpt0 : 0 ≤ p.pathT) (hpt1 : p.pathT ≤ 1)
    (hba : M.bg.active = true) (hbs : M.bg.src = some g)
    (hprog : M.transitionProgress = 0) (hcarry : M.pendingScrollCarry = 0)
    (hpp : M.pendingPromise = none) :
    (finishBackgroundBlend false
        { updateSectionTransition cfg (updateCameraPose 0 M) with morphReady := false }).1.phase
        = Phase.idle
    ∧ (finishBackgroundBlend false
        { updateSectionTransition cfg (updateCameraPose 0 M) with
          morphReady := false }).1.transitionProgress = 0
    ∧ (finishBackgroundBlend false
        { updateSectionTransition cfg (updateCameraPose 0 M) with
          morphReady := false }).1.pendingScrollCarry = 0
    ∧ (finishBackgroundBlend false
        { updateSectionTransition cfg (updateCameraPose 0 M) with
          morphReady := false }).1.groupRotY = M.groupRotY
    ∧ camOf (finishBackgroundBlend false
        { updateSectionTransition cfg (updateCameraPose 0 M) with morphReady := false }).1
        = (p.pathT, p.pathT, p.yaw, p.pitch)
    ∧ (finishBackgroundBlend false
        { updateSectionTransition cfg (updateCameraPose 0 M) with
          morphReady := false }).1.backgroundGradient = g
    ∧ (finishBackgroundBlend false
        { updateSectionTransition cfg (updateCameraPose 0 M) with
          morphReady := false }).1.bg.active = false
    ∧ (finishBackgroundBlend false
        { updateSectionTransition cfg (updateCameraPose 0 M) with
          morphReady := false }).1.points.map attrsOf = M.points.map attrsOf
    ∧ (finishBackgroundBlend false
        { updateSectionTransition cfg (updateCameraPose 0 M) with
          morphReady := false }).1.morphReady = false
    ∧ (finishBackgroundBlend false
        { updateSectionTransition cfg (updateCameraPose 0 M) with
          morphReady := false }).1.pendingPromise = none := by
  have h2core := ucp_core 0 M
  have h2s : (updateCameraPose 0 M).cameraStartPose = some p :=
    (congrArg CoreView.cameraStartPose h2core).trans hsp
  have h2e : (updateCameraPose 0 M).cameraEndPose = some p :=
    (congrArg CoreView.cameraEndPose h2core).trans hep
  have h3core := ust_core cfg (updateCameraPose 0 M)
  have h3cam := ust_cam_fixed cfg (updateCameraPose 0 M) p h2s h2e
  rw [clampQ_eq_self hpt0 hpt1] at h3cam
  have h2ph : (updateCameraPose 0 M).phase = Phase.idle :=
    (congrArg CoreView.phase h2core).trans hph
  have h3rot : (updateSectionTransition cfg (updateCameraPose 0 M)).groupRotY = M.groupRotY := by
    rw [ust_rot cfg (updateCameraPose 0 M) (by rw [h2ph]; simp)]
    rfl
  have h3bg := (ust_bg cfg (updateCameraPose 0 M)).trans (ucp_bg 0 M)
  have m4ba : ({ updateSectionTransition cfg (updateCameraPose 0 M) with
      morphReady := false } : Machine).bg.active = true :=
    (congrArg Prod.fst h3bg).trans hba
  have m4bs : ({ updateSectionTransition cfg (updateCameraPose 0 M) with
      morphReady := false } : Machine).bg.src = some g :=
    (congrArg (fun x => x.2.1) h3bg).trans hbs
  rw [fbb_restore _ g m4ba m4bs]
  refine ⟨?_, ?_, ?_, ?_, ?_, rfl, rfl, ?_, rfl, ?_⟩
  · exact (congrArg CoreView.phase h3core).trans
      ((congrArg CoreView.phase h2core).trans hph)
  · exact (congrArg CoreView.transitionProgress h3core).trans
      ((congrArg CoreView.transitionProgress h2core).trans hprog)
  · exact (congrArg CoreView.pendingScrollCarry h3core).trans
      ((congrArg CoreView.pendingScrollCarry h2core).trans hcarry)
  · exact h3rot
  · exact h3cam
  · exact (congrArg CoreView.pointsAttrs h3core).trans
      (congrArg CoreView.pointsAttrs h2core)
  · exact (congrArg CoreView.pendingPromise h3core).trans
      ((congrArg CoreView.pendingPromise h2core).trans hpp)

/-- cancelTransition restores the pre-transition snapshot exactly. -/
lemma cancelTransition_spec (cfg : Config) (m : Machine) (p : Pose) (g : Gradient)
    (hsp : m.cameraStartPose = some p)
    (hpt0 : 0 ≤ p.pathT) (hpt1 : p.pathT ≤ 1)
    (hba : m.bg.active = true) (hbs : m.bg.src = some g) :
    (cancelTransition cfg m).phase = Phase.idle
    ∧ (cancelTransition cfg m).transitionProgress = 0
    ∧ (cancelTransition cfg m).pendingScrollCarry = 0
    ∧ (cancelTransition cfg m).groupRotY = m.rotationStart
    ∧ camOf (cancelTransition cfg m) = (p.pathT, p.pathT, p.yaw, p.pitch)
    ∧ (cancelTransition cfg m).backgroundGradient = g
    ∧ (cancelTransition cfg m).bg.active = false
    ∧ (cancelTransition cfg m).points.map attrsOf = m.points.map attrsOf
    ∧ (cancelTransition cfg m).morphReady = false
    ∧ (cancelTransition cfg m).pendingPromise = none := by
  unfold cancelTransition
  dsimp only
  exact cancel_tail_spec cfg _ p g rfl hsp hsp hpt0 hpt1 hba hbs rfl rfl rfl


lemma apb_bg (v : ℚ) (m : Machine) : bgOf (applyBackgroundBlend v m) = bgOf m := by
  unfold applyBackgroundBlend setBackgroundGradient
  dsimp only
  repeat' split
  all_goals rfl

lemma sbb_bg_start (t : Gradient) (m : Machine) :
    (startBackgroundBlend (some t) m).bg.active = true
    ∧ (startBackgroundBlend (some t) m).bg.src = some m.backgroundGradient := by
  unfold startBackgroundBlend applyBackgroundBlend setBackgroundGradient
  dsimp only
  exact ⟨rfl, rfl⟩

/-- beginSectionLoad when a morph promise is already pending: flip to the
loading phase, refresh the visuals, and attach the continuation to that
promise. -/
lemma bsl_spec (cfg : Config) (m : Machine) (tgt lid : ℕ)
    (hns : m.nextSection = some tgt) (hpp : m.pendingPromise = some lid) :
    beginSectionLoad cfg m
      = { updateSectionTransition cfg { m with phase := Phase.loading } with
          loads := (updateSectionTransition cfg { m with phase := Phase.loading }).loads.map
            (fun r => if r.lid = lid then { r with hasBegin := true } else r) } := by
  unfold beginSectionLoad
  dsimp only
  split
  · next heq =>
    exact Option.noConfusion (hns.symm.trans heq)
  next tgt2 heq =>
  have hpp2 : (updateSectionTransition cfg { m with phase := Phase.loading }).pendingPromise
      = some lid :=
    (congrArg CoreView.pendingPromise
      (ust_core cfg { m with phase := Phase.loading })).trans hpp
  split
  · next lid2 heq =>
    have h12 : (some lid : Option ℕ) = some lid2 := hpp2.symm.trans heq
    injection h12 with h
    subst h
    rfl
  · next heq =>
    exact Option.noConfusion (hpp2.symm.trans heq)

/-- The tail of startSectionTransition after the state snapshot (main.js lines
812-837): background blend start, morph preload chain creation, visual
refresh, and the synchronous jump to loading at progress ≥ 1 - 1e-4. Proof
device: startSectionTransition is proved equal to this applied to its
snapshot machine. -/
def sstTail (cfg : Config) (bgt : Option Gradient) (tgt : ℕ) (M : Machine) : Machine :=
  let m4 := startBackgroundBlend bgt M
  let lid := m4.nextLoadId
  let m5 : Machine := { m4 with loads := m4.loads ++ [⟨lid, tgt, false, true, none⟩],
                                nextLoadId := lid + 1, pendingPromise := some lid }
  let m6 := updateSectionTransition cfg m5
  if 1 - 1/10000 ≤ m6.transitionProgress then beginSectionLoad cfg m6 else m6

/-- The section-transition bookkeeping fields preserved by every visual
helper and by the load-record edits of the preload chain. -/
structure StView where
  transitionProgress : ℚ
  direction : ℚ
  pendingScrollCarry : ℚ
  wheelAccumulator : ℚ
  rotationStart : ℚ
  nextIndex : ℕ
  index : ℕ
  nextSection : Option ℕ
  phase : Phase
  cameraStartPose : Option Pose
  cameraEndPose : Option Pose
  isReady : Bool
  morphReady : Bool
  pointsAttrs : Option (List V3 × List V3 × Option (List Col) × Option (List Col))

def stvOfCore (c : CoreView) : StView :=
  ⟨c.transitionProgress, c.direction, c.pendingScrollCarry, c.wheelAccumulator,
   c.rotationStart, c.nextIndex, c.index, c.nextSection, c.phase,
   c.cameraStartPose, c.cameraEndPose, c.isReady, c.morphReady, c.pointsAttrs⟩

def stvOf (m : Machine) : StView := stvOfCore (coreOf m)

/-- The refresh-then-maybe-begin tail shared by startSectionTransition: it
preserves the StView fields except for the synchronous jump into loading. -/
lemma sstCore (cfg : Config) (M m5 : Machine) (l tgt2 : ℕ)
    (hstv : stvOf m5 = stvOf M)
    (hpp : m5.pendingPromise = some l)
    (hns : M.nextSection = some tgt2) :
    stvOf (if 1 - 1/10000 ≤ (updateSectionTransition cfg m5).transitionProgress
           then beginSectionLoad cfg (updateSectionTransition cfg m5)
           else updateSectionTransition cfg m5)
      = { stvOf M with
          phase := if 1 - 1/10000 ≤ M.transitionProgress then Phase.loading
                   else M.phase }
    ∧ bgOf (if 1 - 1/10000 ≤ (updateSectionTransition cfg m5).transitionProgress
            then beginSectionLoad cfg (updateSectionTransition cfg m5)
            else updateSectionTransition cfg m5) = bgOf m5 := by
  have h6stv : stvOf (updateSectionTransition cfg m5) = stvOf M :=
    (congrArg stvOfCore (ust_core cfg m5)).trans hstv
  have h6prog : (updateSectionTransition cfg m5).transitionProgress
      = M.transitionProgress := congrArg StView.transitionProgress h6stv
  have hA : (1 - 1/10000 ≤ (updateSectionTransition cfg m5).transitionProgress)
      = (1 - 1/10000 ≤ M.transitionProgress) := by rw [h6prog]
  by_cases hcond : 1 - 1/10000 ≤ M.transitionProgress
  · have hA2 : 1 - 1/10000 ≤ (updateSectionTransition cfg m5).transitionProgress := by
      rw [h6prog]
      exact hcond
    rw [if_pos hA2, if_pos hcond]
    have h6ns : (updateSectionTransition cfg m5).nextSection = some tgt2 :=
      (congrArg StView.nextSection h6stv).trans hns
    have h6pp : (updateSectionTransition cfg m5).pendingPromise = some l :=
      (congrArg CoreView.pendingPromise (ust_core cfg m5)).trans hpp
    rw [bsl_spec cfg _ tgt2 l h6ns h6pp]
    constructor
    · have h2 : stvOf (updateSectionTransition cfg
          { updateSectionTransition cfg m5 with phase := Phase.loading })
          = stvOf ({ updateSectionTransition cfg m5 with phase := Phase.loading }
              : Machine) :=
        congrArg stvOfCore (ust_core cfg _)
      have h3 : stvOf ({ updateSectionTransition cfg m5 with phase := Phase.loading }
            : Machine)
          = { stvOf (updateSectionTransition cfg m5) with phase := Phase.loading } := rfl
      exact h2.trans (h3.trans (by rw [h6stv]))
    · have b1 : bgOf (updateSectionTransition cfg
          { updateSectionTransition cfg m5 with phase := Phase.loading })
          = bgOf ({ updateSectionTransition cfg m5 with phase := Phase.loading }
              : Machine) := ust_bg cfg _
      exact b1.trans (ust_bg cfg m5)
  · have hB : ¬ 1 - 1/10000 ≤ (updateSectionTransition cfg m5).transitionProgress :=
      fun hx => hcond (hA ▸ hx)
    rw [if_neg hB, if_neg hcond]
    constructor
    · exact h6stv.trans (rfl : stvOf M = { stvOf M with phase := M.phase })
    · exact ust_bg cfg m5

/-- The snapshot machine built by startSectionTransition before it starts the
background blend (main.js lines 749-811). -/
def sstSnap (targetIndex : ℕ) (nextSec : SectionCfg)
    (direction initialProgress : ℚ) (m : Machine) : Machine :=
  let directionSign : ℚ := if 0 ≤ direction then 1 else -1
  let baseTurns := nextSec.spinTurns.getD SECTION_SPIN_TURNS
  let scatterOutV := nextSec.scatterOut.getD SECTION_SCATTER_OUT
  let scatterInV := nextSec.scatterIn.getD SECTION_SCATTER_IN
  let m1 := { m with
    phase := Phase.fadeOut
    phaseElapsed := 0
    transitionElapsed := 0
    pendingIndex := targetIndex
    pendingPromise := none
    direction := directionSign
    nextIndex := targetIndex
    nextSection := some targetIndex
    spinTurns := baseTurns
    rotationStart := m.groupRotY
    rotationMid := m.groupRotY + directionSign * baseTurns * MATH_PI
    rotationTarget := m.groupRotY + directionSign * baseTurns * MATH_PI * 2
    rotationDuration := nextSec.spinDuration.getD SECTION_SPIN_DURATION
    scatterOut := max scatterOutV SCROLL_SCATTER_PEAK
    nextScatterRest := scatterInV
    transitionProgress := clampQ initialProgress 0 1
    pendingScrollCarry := 0
    wheelAccumulator := 0
    morphReady := false }
  let currentPose := getCurrentCameraPose m1
  let endPathT := match nextSec.cameraPathT with
    | some t => clampQ t 0 1
    | none => currentPose.pathT
  let endYaw := nextSec.cameraYaw.getD currentPose.yaw
  let endPitch := nextSec.cameraPitch.getD currentPose.pitch
  let m2 := { m1 with cameraStartPose := some currentPose,
                      cameraEndPose := some ⟨endPathT, endYaw, endPitch⟩ }
  let tw0 := { m2.scrollTweenState with rotation := m2.groupRotY,
                                        scatter := m2.scatterAmp, morph := m2.morphProgress,
                                        colorMix := m2.morphProgress }
  let tw := match m2.points with
    | some p => { tw0 with trRotX := p.rotX, trRotY := p.rotY, trRotZ := p.rotZ,
                           trScale := p.scale, trOffX := p.posX, trOffY := p.posY,
                           trOffZ := p.posZ }
    | none => { tw0 with trRotX := 0, trRotY := 0, trRotZ := 0, trScale := 1,
                         trOffX := 0, trOffY := 0, trOffZ := 0 }
  { m2 with scrollTweenState := tw, scrollTargetsCurrent := tw }

lemma sst_eq (cfg : Config) (nextIndexArg : ℤ) (direction initialProgress : ℚ)
    (m : Machine) (nextSec : SectionCfg)
    (hT : ¬ getSectionCount cfg = 0)
    (hguard : ¬ (normalizeSectionIndex cfg nextIndexArg = m.index ∧ m.phase ≠ .boot))
    (hsec : getSectionByIndex cfg ((normalizeSectionIndex cfg nextIndexArg : ℕ) : ℤ)
      = some nextSec) :
    startSectionTransition cfg nextIndexArg direction initialProgress m
      = sstTail cfg nextSec.background (normalizeSectionIndex cfg nextIndexArg)
          (sstSnap (normalizeSectionIndex cfg nextIndexArg) nextSec direction
            initialProgress m) := by
  unfold startSectionTransition
  dsimp only
  rw [if_neg hT, if_neg hguard]
  split
  · next heq => exact Option.noConfusion (hsec.symm.trans heq)
  · next sec2 heq =>
    have hse : sec2 = nextSec := by
      have h := hsec.symm.trans heq
      injection h with h2
      exact h2.symm
    subst hse
    rfl

lemma sstTail_stv (cfg : Config) (bgt : Option Gradient) (tgt : ℕ) (M : Machine)
    (tgt2 : ℕ) (hns : M.nextSection = some tgt2) :
    stvOf (sstTail cfg bgt tgt M)
      = { stvOf M with
          phase := if 1 - 1/10000 ≤ M.transitionProgress then Phase.loading
                   else M.phase }
    ∧ bgOf (sstTail cfg bgt tgt M) = bgOf (startBackgroundBlend bgt M) := by
  unfold sstTail
  dsimp only
  refine sstCore cfg M _ (startBackgroundBlend bgt M).nextLoadId tgt2 ?_ rfl hns
  show stvOf (startBackgroundBlend bgt M) = stvOf M
  exact congrArg stvOfCore (sbb_core bgt M)

/-- The idle branch of applyScrollDelta (main.js lines 1180-1192) once the
wheel accumulator crosses the trigger threshold. -/
lemma asd_idle (cfg : Config) (fuel : ℕ) (delta : ℚ) (m : Machine)
    (hready : m.isReady = true)
    (h1 : m.phase ≠ .fadeOut) (h2 : m.phase ≠ .fadeIn) (h3 : m.phase ≠ .loading)
    (hthr : SCROLL_TRIGGER_THRESHOLD ≤ |m.wheelAccumulator + delta|) :
    applyScrollDeltaF cfg (fuel + 1) delta false m
      = (let acc := m.wheelAccumulator + delta
         let direction : ℚ := if 0 < acc then 1 else -1
         let overshoot := acc - direction * SCROLL_TRIGGER_THRESHOLD
         let progressRaw := |overshoot| / SCROLL_PROGRESS_SCALE
         let initialProgress := min 1 progressRaw
         let carry := max 0 (progressRaw - initialProgress)
         let m3 := startSectionTransition cfg
           ((m.index : ℤ) + (if 0 < acc then 1 else -1)) direction initialProgress
           { m with wheelAccumulator := 0 }
         if 0 < carry then { m3 with pendingScrollCarry := carry } else m3) := by
  unfold applyScrollDeltaF
  dsimp only
  simp only [Bool.false_eq_true, if_false]
  rw [if_neg (fun hx => hx hready),
      if_neg (fun hor => Or.elim hor h1 h2), if_neg h3, if_pos hthr]

/-- The loading branch of applyScrollDelta (main.js lines 1171-1178): the
delta is converted to signed progress and folded into the carry only when it
moves with the transition. -/
lemma asd_loading (cfg : Config) (fuel : ℕ) (delta : ℚ) (m : Machine)
    (hready : m.isReady = true)
    (h1 : m.phase ≠ .fadeOut) (h2 : m.phase ≠ .fadeIn) (h3 : m.phase = .loading) :
    applyScrollDeltaF cfg (fuel + 1) delta false m
      = (let carry := delta / SCROLL_PROGRESS_SCALE
           * (if m.direction = 0 then 1 else m.direction)
         if 0 < carry then { m with pendingScrollCarry := m.pendingScrollCarry + carry }
         else m) := by
  unfold applyScrollDeltaF
  dsimp only
  simp only [Bool.false_eq_true, if_false]
  rw [if_neg (fun hx => hx hready),
      if_neg (fun hor => Or.elim hor h1 h2), if_pos h3]

/-! Concrete fixtures: a three-section configuration and an idle, ready
machine displaying section 0, used to instantiate every hypothesis-bearing
theorem on real data. -/

def gGray : Gradient := ⟨⟨1, 1, 1⟩, ⟨2, 2, 2⟩, ⟨3, 3, 3⟩⟩

def gBlue : Gradient := ⟨⟨0, 0, 5⟩, ⟨0, 0, 6⟩, ⟨0, 0, 7⟩⟩

def g0 : Geom := ⟨[⟨0, 0, 0⟩, ⟨1, 0, 0⟩], none⟩

def g1 : Geom := ⟨[⟨10, 0, 0⟩, ⟨11, 0, 0⟩, ⟨12, 0, 0⟩], none⟩

def g2 : Geom := ⟨[⟨20, 0, 0⟩], none⟩

def pts0 : Points :=
  { positionAttr := [⟨0, 0, 0⟩, ⟨1, 0, 0⟩], morphTargetAttr := [⟨0, 0, 0⟩, ⟨1, 0, 0⟩] }

def cfg3 : Config := ⟨[
  { modelPath := 0 },
  { modelPath := 1, background := some gBlue, cameraYaw := some 30,
    cameraPitch := some (-10), cameraPathT := some (1/2) },
  { modelPath := 2 }]⟩

def s0 : Machine :=
  { index := 0, phase := .idle, isReady := true, backgroundGradient := gGray,
    points := some pts0, assets := [{ geometry := some g0 }, {}, {}],
    baseVertexCount := 2, originalGeom := some g0 }

/-- Section 0 → 1 transition entered at fadeOut progress 9/10. -/
def mNine : Machine := startSectionTransition cfg3 1 1 (9/10) s0

/-- The same transition pushed to completion by a 270-unit wheel delta: the
fadeOut overshoots, beginSectionLoad runs, and the machine waits in loading
with pendingScrollCarry 1/5. -/
def c2b : Machine := applyScrollDelta cfg3 270 false mNine

/-- A transition toward section 1 started from idle at progress 0. -/
def c1a : Machine := startSectionTransition cfg3 1 1 0 s0

/-- ... reversed out before completing (wheel −900), cancelling it. -/
def c1b : Machine := applyScrollDelta cfg3 (-900) false c1a

/-- ... then a newer transition started toward section 2. -/
def c1c : Machine := startSectionTransition cfg3 2 1 0 c1b

/-- Section 2's load resolves first. -/
def c1d : Machine := resolveLoad cfg3 1 (some g2) c1c

/-- Finally the stale section-1 load resolves. -/
def c1e : Machine := resolveLoad cfg3 0 (some g1) c1d

/-- C10: a startSectionTransition call whose target index normalizes to the
currently displayed index, outside boot, returns the machine unchanged: no
field of the state — phase, progress, pending load, carry, camera poses,
rotation targets — is modified. -/
theorem C10_same_section_transition_is_noop (cfg : Config) (n : ℤ) (d p : ℚ)
    (m : Machine) (hidx : normalizeSectionIndex cfg n = m.index)
    (hboot : m.phase ≠ .boot) :
    startSectionTransition cfg n d p m = m := by
  unfold startSectionTransition
  dsimp only
  by_cases hT : getSectionCount cfg = 0
  · rw [if_pos hT]
  · rw [if_neg hT, if_pos ⟨hidx, hboot⟩]

/-- C10 witness: asking for section 3 of the three-section fixture from the
idle machine displaying section 0 normalizes to index 0 and changes nothing. -/
theorem C10_same_section_transition_is_noop_witness :
    normalizeSectionIndex cfg3 3 = s0.index ∧ s0.phase ≠ .boot
    ∧ startSectionTransition cfg3 3 1 (1/2) s0 = s0 :=
  ⟨by with_unfolding_all decide, by with_unfolding_all decide,
   C10_same_section_transition_is_noop cfg3 3 1 (1/2) s0
     (by with_unfolding_all decide) (by with_unfolding_all decide)⟩

lemma signSquash (acc : ℚ) :
    (if (0:ℚ) ≤ (if 0 < acc then (1:ℚ) else -1) then (1:ℚ) else -1)
      = (if 0 < acc then (1:ℚ) else -1) := by
  by_cases h : 0 < acc
  · rw [if_pos h]
    rw [if_pos (show (0:ℚ) ≤ 1 by norm_num)]
  · rw [if_neg h]
    rw [if_neg (show ¬ (0:ℚ) ≤ -1 by norm_num)]

/-- The value observed after startSectionTransition's tail plus the
carry-override wrapper of applyScrollDelta's idle branch. -/
lemma c5_tail (cfg : Config) (bgt : Option Gradient) (tgt : ℕ) (SN : Machine)
    (C : ℚ) (tgt2 : ℕ) (hns : SN.nextSection = some tgt2) :
    ((if 0 < C then { sstTail cfg bgt tgt SN with pendingScrollCarry := C }
      else sstTail cfg bgt tgt SN) : Machine).wheelAccumulator = SN.wheelAccumulator
    ∧ ((if 0 < C then { sstTail cfg bgt tgt SN with pendingScrollCarry := C }
      else sstTail cfg bgt tgt SN) : Machine).direction = SN.direction
    ∧ ((if 0 < C then { sstTail cfg bgt tgt SN with pendingScrollCarry := C }
      else sstTail cfg bgt tgt SN) : Machine).nextIndex = SN.nextIndex
    ∧ ((if 0 < C then { sstTail cfg bgt tgt SN with pendingScrollCarry := C }
      else sstTail cfg bgt tgt SN) : Machine).nextSection = SN.nextSection
    ∧ ((if 0 < C then { sstTail cfg bgt tgt SN with pendingScrollCarry := C }
      else sstTail cfg bgt tgt SN) : Machine).transitionProgress = SN.transitionProgress
    ∧ ((if 0 < C then { sstTail cfg bgt tgt SN with pendingScrollCarry := C }
      else sstTail cfg bgt tgt SN) : Machine).pendingScrollCarry
        = (if 0 < C then C else SN.pendingScrollCarry)
    ∧ ((if 0 < C then { sstTail cfg bgt tgt SN with pendingScrollCarry := C }
      else sstTail cfg bgt tgt SN) : Machine).phase
        = (if 1 - 1/10000 ≤ SN.transitionProgress then Phase.loading else SN.phase) := by
  have hstv := (sstTail_stv cfg bgt tgt SN tgt2 hns).1
  by_cases hc : 0 < C
  · rw [if_pos hc, if_pos hc]
    exact ⟨congrArg StView.wheelAccumulator hstv, congrArg StView.direction hstv,
      congrArg StView.nextIndex hstv, congrArg StView.nextSection hstv,
      congrArg StView.transitionProgress hstv, rfl, congrArg StView.phase hstv⟩
  · rw [if_neg hc, if_neg hc]
    exact ⟨congrArg StView.wheelAccumulator hstv, congrArg StView.direction hstv,
      congrArg StView.nextIndex hstv, congrArg StView.nextSection hstv,
      congrArg StView.transitionProgress hstv, congrArg StView.pendingScrollCarry hstv,
      congrArg StView.phase hstv⟩

/-- C5: while idle, scroll deltas accumulate into the wheel accumulator; when
its magnitude reaches the trigger threshold, the accumulator resets to 0, the
direction is the accumulator's sign, the overshoot beyond the threshold
converts to initial transition progress min(1, |overshoot|/scrollScale), the
excess beyond a full progress is stored as pending scroll carry, and the
machine enters fadeOut (or jumps straight to loading when the initial
progress is already ≥ 1 - 1e-4). -/
theorem C5_idle_wheel_threshold_starts_transition (cfg : Config) (delta : ℚ)
    (m : Machine) (nextSec : SectionCfg)
    (hready : m.isReady = true) (hidle : m.phase = .idle)
    (hthr : SCROLL_TRIGGER_THRESHOLD ≤ |m.wheelAccumulator + delta|)
    (hT : ¬ getSectionCount cfg = 0)
    (htgt : normalizeSectionIndex cfg
        ((m.index : ℤ) + (if 0 < m.wheelAccumulator + delta then 1 else -1)) ≠ m.index)
    (hsec : getSectionByIndex cfg
        ((normalizeSectionIndex cfg ((m.index : ℤ)
          + (if 0 < m.wheelAccumulator + delta then 1 else -1)) : ℕ) : ℤ)
        = some nextSec) :
    (applyScrollDelta cfg delta false m).wheelAccumulator = 0
    ∧ (applyScrollDelta cfg delta false m).direction
        = (if 0 < m.wheelAccumulator + delta then (1 : ℚ) else -1)
    ∧ (applyScrollDelta cfg delta false m).nextIndex
        = normalizeSectionIndex cfg
            ((m.index : ℤ) + (if 0 < m.wheelAccumulator + delta then 1 else -1))
    ∧ (applyScrollDelta cfg delta false m).nextSection
        = some (normalizeSectionIndex cfg
            ((m.index : ℤ) + (if 0 < m.wheelAccumulator + delta then 1 else -1)))
    ∧ (applyScrollDelta cfg delta false m).transitionProgress
        = min 1 (|m.wheelAccumulator + delta
            - (if 0 < m.wheelAccumulator + delta then (1:ℚ) else -1)
              * SCROLL_TRIGGER_THRESHOLD| / SCROLL_PROGRESS_SCALE)
    ∧ (applyScrollDelta cfg delta false m).pendingScrollCarry
        = max 0 (|m.wheelAccumulator + delta
            - (if 0 < m.wheelAccumulator + delta then (1:ℚ) else -1)
              * SCROLL_TRIGGER_THRESHOLD| / SCROLL_PROGRESS_SCALE
          - min 1 (|m.wheelAccumulator + delta
            - (if 0 < m.wheelAccumulator + delta then (1:ℚ) else -1)
              * SCROLL_TRIGGER_THRESHOLD| / SCROLL_PROGRESS_SCALE))
    ∧ (applyScrollDelta cfg delta false m).phase
        = (if 1 - 1/10000 ≤ min 1 (|m.wheelAccumulator + delta
            - (if 0 < m.wheelAccumulator + delta then (1:ℚ) else -1)
              * SCROLL_TRIGGER_THRESHOLD| / SCROLL_PROGRESS_SCALE)
           then Phase.loading else Phase.fadeOut) := by
  have h1 : m.phase ≠ Phase.fadeOut := by rw [hidle]; exact fun hx => Phase.noConfusion hx
  have h2 : m.phase ≠ Phase.fadeIn := by rw [hidle]; exact fun hx => Phase.noConfusion hx
  have h3 : m.phase ≠ Phase.loading := by rw [hidle]; exact fun hx => Phase.noConfusion hx
  have e0 : applyScrollDelta cfg delta false m
      = applyScrollDeltaF cfg (8 + 1) delta false m := rfl
  have hg2 : ¬ (normalizeSectionIndex cfg
      ((m.index : ℤ) + (if 0 < m.wheelAccumulator + delta then 1 else -1))
        = ({ m with wheelAccumulator := 0 } : Machine).index
      ∧ ({ m with wheelAccumulator := 0 } : Machine).phase ≠ Phase.boot) :=
    fun hand => htgt hand.1
  have hraw0 : 0 ≤ |m.wheelAccumulator + delta
      - (if 0 < m.wheelAccumulator + delta then (1:ℚ) else -1)
        * SCROLL_TRIGGER_THRESHOLD| / SCROLL_PROGRESS_SCALE :=
    div_nonneg (abs_nonneg _) (by norm_num [SCROLL_PROGRESS_SCALE])
  have hclamp : clampQ (min 1 (|m.wheelAccumulator + delta
      - (if 0 < m.wheelAccumulator + delta then (1:ℚ) else -1)
        * SCROLL_TRIGGER_THRESHOLD| / SCROLL_PROGRESS_SCALE)) 0 1
      = min 1 (|m.wheelAccumulator + delta
      - (if 0 < m.wheelAccumulator + delta then (1:ℚ) else -1)
        * SCROLL_TRIGGER_THRESHOLD| / SCROLL_PROGRESS_SCALE) :=
    clampQ_of_mem (le_min (by norm_num) hraw0) (min_le_left _ _)
  rw [e0, asd_idle cfg 8 delta m hready h1 h2 h3 hthr]
  dsimp only
  rw [sst_eq cfg _ _ _ _ nextSec hT hg2 hsec]
  have H := c5_tail cfg nextSec.background
    (normalizeSectionIndex cfg
      ((m.index : ℤ) + (if 0 < m.wheelAccumulator + delta then 1 else -1)))
    (sstSnap (normalizeSectionIndex cfg
        ((m.index : ℤ) + (if 0 < m.wheelAccumulator + delta then 1 else -1)))
      nextSec (if 0 < m.wheelAccumulator + delta then (1:ℚ) else -1)
      (min 1 (|m.wheelAccumulator + delta
        - (if 0 < m.wheelAccumulator + delta then (1:ℚ) else -1)
          * SCROLL_TRIGGER_THRESHOLD| / SCROLL_PROGRESS_SCALE))
      { m with wheelAccumulator := 0 })
    (max 0 (|m.wheelAccumulator + delta
        - (if 0 < m.wheelAccumulator + delta then (1:ℚ) else -1)
          * SCROLL_TRIGGER_THRESHOLD| / SCROLL_PROGRESS_SCALE
      - min 1 (|m.wheelAccumulator + delta
        - (if 0 < m.wheelAccumulator + delta then (1:ℚ) else -1)
          * SCROLL_TRIGGER_THRESHOLD| / SCROLL_PROGRESS_SCALE)))
    (normalizeSectionIndex cfg
      ((m.index : ℤ) + (if 0 < m.wheelAccumulator + delta then 1 else -1))) rfl
  have hsp : (sstSnap (normalizeSectionIndex cfg
        ((m.index : ℤ) + (if 0 < m.wheelAccumulator + delta then 1 else -1)))
      nextSec (if 0 < m.wheelAccumulator + delta then (1:ℚ) else -1)
      (min 1 (|m.wheelAccumulator + delta
        - (if 0 < m.wheelAccumulator + delta then (1:ℚ) else -1)
          * SCROLL_TRIGGER_THRESHOLD| / SCROLL_PROGRESS_SCALE))
      { m with wheelAccumulator := 0 }).transitionProgress
      = min 1 (|m.wheelAccumulator + delta
        - (if 0 < m.wheelAccumulator + delta then (1:ℚ) else -1)
          * SCROLL_TRIGGER_THRESHOLD| / SCROLL_PROGRESS_SCALE) := hclamp
  rw [hsp] at H
  have hCzero : (if 0 < max 0 (|m.wheelAccumulator + delta
        - (if 0 < m.wheelAccumulator + delta then (1:ℚ) else -1)
          * SCROLL_TRIGGER_THRESHOLD| / SCROLL_PROGRESS_SCALE
      - min 1 (|m.wheelAccumulator + delta
        - (if 0 < m.wheelAccumulator + delta then (1:ℚ) else -1)
          * SCROLL_TRIGGER_THRESHOLD| / SCROLL_PROGRESS_SCALE))
      then max 0 (|m.wheelAccumulator + delta
        - (if 0 < m.wheelAccumulator + delta then (1:ℚ) else -1)
          * SCROLL_TRIGGER_THRESHOLD| / SCROLL_PROGRESS_SCALE
      - min 1 (|m.wheelAccumulator + delta
        - (if 0 < m.wheelAccumulator + delta then (1:ℚ) else -1)
          * SCROLL_TRIGGER_THRESHOLD| / SCROLL_PROGRESS_SCALE))
      else (0:ℚ))
      = max 0 (|m.wheelAccumulator + delta
        - (if 0 < m.wheelAccumulator + delta then (1:ℚ) else -1)
          * SCROLL_TRIGGER_THRESHOLD| / SCROLL_PROGRESS_SCALE
      - min 1 (|m.wheelAccumulator + delta
        - (if 0 < m.wheelAccumulator + delta then (1:ℚ) else -1)
          * SCROLL_TRIGGER_THRESHOLD| / SCROLL_PROGRESS_SCALE)) := by
    by_cases hc : 0 < max 0 (|m.wheelAccumulator + delta
        - (if 0 < m.wheelAccumulator + delta then (1:ℚ) else -1)
          * SCROLL_TRIGGER_THRESHOLD| / SCROLL_PROGRESS_SCALE
      - min 1 (|m.wheelAccumulator + delta
        - (if 0 < m.wheelAccumulator + delta then (1:ℚ) else -1)
          * SCROLL_TRIGGER_THRESHOLD| / SCROLL_PROGRESS_SCALE))
    · rw [if_pos hc]
    · rw [if_neg hc]
      exact (le_antisymm (not_lt.mp hc) (le_max_left _ _)).symm
  exact ⟨H.1, H.2.1.trans (signSquash _), H.2.2.1, H.2.2.2.1, H.2.2.2.2.1,
    H.2.2.2.2.2.1.trans hCzero, H.2.2.2.2.2.2⟩

/-- C5 witness: a 150-unit wheel delta on the idle fixture crosses the
80-unit threshold with overshoot 70, starting a fadeOut toward section 1 at
progress 70/900 with no carry. -/
theorem C5_idle_wheel_threshold_starts_transition_witness :
    (s0.isReady = true ∧ s0.phase = .idle
      ∧ SCROLL_TRIGGER_THRESHOLD ≤ |s0.wheelAccumulator + 150|)
    ∧ ((applyScrollDelta cfg3 150 false s0).wheelAccumulator = 0
    ∧ (applyScrollDelta cfg3 150 false s0).direction
        = (if 0 < s0.wheelAccumulator + 150 then (1 : ℚ) else -1)
    ∧ (applyScrollDelta cfg3 150 false s0).nextIndex
        = normalizeSectionIndex cfg3
            ((s0.index : ℤ) + (if 0 < s0.wheelAccumulator + 150 then 1 else -1))
    ∧ (applyScrollDelta cfg3 150 false s0).nextSection
        = some (normalizeSectionIndex cfg3
            ((s0.index : ℤ) + (if 0 < s0.wheelAccumulator + 150 then 1 else -1)))
    ∧ (applyScrollDelta cfg3 150 false s0).transitionProgress
        = min 1 (|s0.wheelAccumulator + 150
            - (if 0 < s0.wheelAccumulator + 150 then (1:ℚ) else -1)
              * SCROLL_TRIGGER_THRESHOLD| / SCROLL_PROGRESS_SCALE)
    ∧ (applyScrollDelta cfg3 150 false s0).pendingScrollCarry
        = max 0 (|s0.wheelAccumulator + 150
            - (if 0 < s0.wheelAccumulator + 150 then (1:ℚ) else -1)
              * SCROLL_TRIGGER_THRESHOLD| / SCROLL_PROGRESS_SCALE
          - min 1 (|s0.wheelAccumulator + 150
            - (if 0 < s0.wheelAccumulator + 150 then (1:ℚ) else -1)
              * SCROLL_TRIGGER_THRESHOLD| / SCROLL_PROGRESS_SCALE))
    ∧ (applyScrollDelta cfg3 150 false s0).phase
        = (if 1 - 1/10000 ≤ min 1 (|s0.wheelAccumulator + 150
            - (if 0 < s0.wheelAccumulator + 150 then (1:ℚ) else -1)
              * SCROLL_TRIGGER_THRESHOLD| / SCROLL_PROGRESS_SCALE)
           then Phase.loading else Phase.fadeOut)) :=
  ⟨⟨by with_unfolding_all decide, by with_unfolding_all decide,
    by with_unfolding_all decide⟩,
   C5_idle_wheel_threshold_starts_transition cfg3 150 s0
     { modelPath := 1, background := some gBlue, cameraYaw := some 30,
       cameraPitch := some (-10), cameraPathT := some (1/2) }
     (by with_unfolding_all decide) (by with_unfolding_all decide)
     (by with_unfolding_all decide) (by with_unfolding_all decide)
     (by with_unfolding_all decide) (by with_unfolding_all decide)⟩

/-- C6 (amended): a scroll delta received in the loading phase never changes
the phase or the transition progress; it is folded into the pending scroll
carry when it moves with the transition direction, and dropped entirely when
it moves against it. -/
theorem C6_loading_scroll_only_accumulates_carry (cfg : Config) (delta : ℚ)
    (m : Machine) (hready : m.isReady = true) (hph : m.phase = .loading) :
    applyScrollDelta cfg delta false m
      = (if 0 < delta / SCROLL_PROGRESS_SCALE
            * (if m.direction = 0 then 1 else m.direction)
         then { m with pendingScrollCarry := m.pendingScrollCarry
                         + delta / SCROLL_PROGRESS_SCALE
                           * (if m.direction = 0 then 1 else m.direction) }
         else m) := by
  have h1 : m.phase ≠ Phase.fadeOut := by rw [hph]; exact fun hx => Phase.noConfusion hx
  have h2 : m.phase ≠ Phase.fadeIn := by rw [hph]; exact fun hx => Phase.noConfusion hx
  have e0 : applyScrollDelta cfg delta false m
      = applyScrollDeltaF cfg (8 + 1) delta false m := rfl
  rw [e0, asd_loading cfg 8 delta m hready h1 h2 hph]

/-- C6 witness: a forward wheel delta of 90 during the loading fixture adds
90/900 · direction to the carry. -/
theorem C6_loading_scroll_only_accumulates_carry_witness :
    (c2b.isReady = true ∧ c2b.phase = .loading)
    ∧ applyScrollDelta cfg3 90 false c2b
      = (if 0 < 90 / SCROLL_PROGRESS_SCALE
            * (if c2b.direction = 0 then 1 else c2b.direction)
         then { c2b with pendingScrollCarry := c2b.pendingScrollCarry
                           + 90 / SCROLL_PROGRESS_SCALE
                             * (if c2b.direction = 0 then 1 else c2b.direction) }
         else c2b) :=
  ⟨⟨by with_unfolding_all decide, by with_unfolding_all decide⟩,
   C6_loading_scroll_only_accumulates_carry cfg3 90 c2b
     (by with_unfolding_all decide) (by with_unfolding_all decide)⟩

/-- C6 counterexample to the spec's wording: in the loading fixture (carry
1/5, direction 1) a counter-directional delta of −90 leaves the carry at 1/5
instead of accumulating −90/900; the delta is dropped, not replayed later. -/
theorem C6_counter_directional_delta_dropped :
    c2b.phase = Phase.loading
    ∧ c2b.direction = 1
    ∧ c2b.pendingScrollCarry = 1/5
    ∧ (applyScrollDelta cfg3 (-90) false c2b).pendingScrollCarry = 1/5
    ∧ c2b.pendingScrollCarry + (-90) / SCROLL_PROGRESS_SCALE * c2b.direction
        ≠ 1/5 := by
  with_unfolding_all decide

/-- advanceTransitionProgress during fadeOut with a reversing step large
enough to drive the progress to ≤ 0 calls cancelTransition. -/
lemma atp_cancel (cfg : Config) (fuel : ℕ) (step : ℚ) (m : Machine)
    (hph : m.phase = .fadeOut) (hd0 : ¬ m.direction = 0)
    (hsg : ¬ step * m.direction = 0)
    (hnx : m.transitionProgress + step * m.direction ≤ 0) :
    advanceTransitionProgressF cfg (fuel + 1) step m = cancelTransition cfg m := by
  unfold advanceTransitionProgressF
  dsimp only
  rw [if_neg (fun hand => hand.1 hph), if_neg hd0, if_neg hsg, if_pos hph,
      if_pos hnx]

/-- C3: a fadeOut whose progress is driven back to ≤ 0 before completing is
cancelled: the phase snaps to idle at progress 0 with the carry cleared, the
group rotation returns to the recorded rotation start, the camera returns to
the pre-transition pose snapshot, the background gradient reverts to the
blend's saved source with the blend stopped, the point attribute buffers are
untouched (no partial morph), and no load is awaited. -/
theorem C3_fadeOut_reversal_cancels_and_restores (cfg : Config) (step : ℚ)
    (m : Machine) (p : Pose) (g : Gradient)
    (hph : m.phase = .fadeOut) (hd0 : ¬ m.direction = 0)
    (hsg : ¬ step * m.direction = 0)
    (hnx : m.transitionProgress + step * m.direction ≤ 0)
    (hsp : m.cameraStartPose = some p) (hpt0 : 0 ≤ p.pathT) (hpt1 : p.pathT ≤ 1)
    (hba : m.bg.active = true) (hbs : m.bg.src = some g) :
    (advanceTransitionProgress cfg step m).phase = Phase.idle
    ∧ (advanceTransitionProgress cfg step m).transitionProgress = 0
    ∧ (advanceTransitionProgress cfg step m).pendingScrollCarry = 0
    ∧ (advanceTransitionProgress cfg step m).groupRotY = m.rotationStart
    ∧ camOf (advanceTransitionProgress cfg step m) = (p.pathT, p.pathT, p.yaw, p.pitch)
    ∧ (advanceTransitionProgress cfg step m).backgroundGradient = g
    ∧ (advanceTransitionProgress cfg step m).bg.active = false
    ∧ (advanceTransitionProgress cfg step m).points.map attrsOf = m.points.map attrsOf
    ∧ (advanceTransitionProgress cfg step m).morphReady = false
    ∧ (advanceTransitionProgress cfg step m).pendingPromise = none := by
  have e0 : advanceTransitionProgress cfg step m
      = advanceTransitionProgressF cfg (8 + 1) step m := rfl
  rw [e0, atp_cancel cfg 8 step m hph hd0 hsg hnx]
  exact cancelTransition_spec cfg m p g hsp hpt0 hpt1 hba hbs

/-- C3 witness: reversing the 9/10-progress fadeOut fixture by a full step
cancels it, restoring the idle camera pose (0,0,0), the gray background, and
the untouched point buffers. -/
theorem C3_fadeOut_reversal_cancels_and_restores_witness :
    (mNine.phase = .fadeOut ∧ ¬ mNine.direction = 0
      ∧ ¬ (-1 : ℚ) * mNine.direction = 0
      ∧ mNine.transitionProgress + (-1) * mNine.direction ≤ 0
      ∧ mNine.cameraStartPose = some ⟨0, 0, 0⟩
      ∧ mNine.bg.active = true ∧ mNine.bg.src = some gGray)
    ∧ ((advanceTransitionProgress cfg3 (-1) mNine).phase = Phase.idle
    ∧ (advanceTransitionProgress cfg3 (-1) mNine).transitionProgress = 0
    ∧ (advanceTransitionProgress cfg3 (-1) mNine).pendingScrollCarry = 0
    ∧ (advanceTransitionProgress cfg3 (-1) mNine).groupRotY = mNine.rotationStart
    ∧ camOf (advanceTransitionProgress cfg3 (-1) mNine)
        = ((⟨0, 0, 0⟩ : Pose).pathT, (⟨0, 0, 0⟩ : Pose).pathT,
           (⟨0, 0, 0⟩ : Pose).yaw, (⟨0, 0, 0⟩ : Pose).pitch)
    ∧ (advanceTransitionProgress cfg3 (-1) mNine).backgroundGradient = gGray
    ∧ (advanceTransitionProgress cfg3 (-1) mNine).bg.active = false
    ∧ (advanceTransitionProgress cfg3 (-1) mNine).points.map attrsOf
        = mNine.points.map attrsOf
    ∧ (advanceTransitionProgress cfg3 (-1) mNine).morphReady = false
    ∧ (advanceTransitionProgress cfg3 (-1) mNine).pendingPromise = none) :=
  ⟨⟨by with_unfolding_all decide, by with_unfolding_all decide,
    by with_unfolding_all decide, by with_unfolding_all decide,
    by with_unfolding_all decide, by with_unfolding_all decide,
    by with_unfolding_all decide⟩,
   C3_fadeOut_reversal_cancels_and_restores cfg3 (-1) mNine ⟨0, 0, 0⟩ gGray
     (by with_unfolding_all decide) (by with_unfolding_all decide)
     (by with_unfolding_all decide) (by with_unfolding_all decide)
     (by with_unfolding_all decide) (by with_unfolding_all decide)
     (by with_unfolding_all decide) (by with_unfolding_all decide)
     (by with_unfolding_all decide)⟩

lemma smp_core (v : ℚ) (m : Machine) :
    coreOf (setMorphProgress v m) = coreOf m := rfl

/-- beginSectionLoad's continuation up to (and including) the entry into
fadeIn (main.js lines 994-1010): flag the morph ready, commit the section
index and scatter rest, and seed the fadeIn progress from the pending scroll
carry. -/
def btcMid (cfg : Config) (m : Machine) : Machine :=
  let wasMorphReady := m.morphReady
  let m1 := { m with morphReady := true }
  let currentProgress := m1.transitionProgress
  let m2 := if ¬ wasMorphReady ∧ 0 < currentProgress ∧
      (m1.phase = .fadeOut ∨ m1.phase = .fadeIn)
    then setMorphProgress (easeInOutCubic currentProgress) m1
    else m1
  let m3 := updateSectionTransition cfg m2
  let m4 := { m3 with index := m3.nextIndex }
  let m5 := { m4 with scatterRest := m4.nextScatterRest }
  let tp := min 1 m5.pendingScrollCarry
  { m5 with transitionProgress := tp,
            pendingScrollCarry := max 0 (m5.pendingScrollCarry - tp),
            phase := Phase.fadeIn }

lemma btc_eq (cfg : Config) (fuel : ℕ) (m : Machine) :
    beginThenCallback cfg fuel m
      = (if 1 - 1/10000 ≤ (updateSectionTransition cfg
            (ensureTextOpacity 0 (btcMid cfg m))).transitionProgress
         then completeFadeInF cfg fuel
            (updateSectionTransition cfg (ensureTextOpacity 0 (btcMid cfg m)))
         else updateSectionTransition cfg (ensureTextOpacity 0 (btcMid cfg m))) := rfl

/-- Once fadeIn is entered below the completion threshold, the trailing
visual refresh of the continuation leaves the bookkeeping untouched. -/
lemma btc_tail (cfg : Config) (fuel : ℕ) (M : Machine)
    (htp : M.transitionProgress < 1 - 1/10000) :
    stvOf (if 1 - 1/10000 ≤ (updateSectionTransition cfg
          (ensureTextOpacity 0 M)).transitionProgress
       then completeFadeInF cfg fuel (updateSectionTransition cfg (ensureTextOpacity 0 M))
       else updateSectionTransition cfg (ensureTextOpacity 0 M)) = stvOf M := by
  have hst : stvOf (updateSectionTransition cfg (ensureTextOpacity 0 M)) = stvOf M :=
    (congrArg stvOfCore (ust_core cfg _)).trans (congrArg stvOfCore (eto_core 0 M))
  have hprog : (updateSectionTransition cfg (ensureTextOpacity 0 M)).transitionProgress
      = M.transitionProgress := congrArg StView.transitionProgress hst
  rw [if_neg (fun hx => absurd (hprog ▸ hx) (not_le.mpr htp))]
  exact hst

lemma btcMid_stv (cfg : Config) (m : Machine) :
    (btcMid cfg m).phase = Phase.fadeIn
    ∧ (btcMid cfg m).transitionProgress = min 1 m.pendingScrollCarry
    ∧ (btcMid cfg m).pendingScrollCarry
        = max 0 (m.pendingScrollCarry - min 1 m.pendingScrollCarry)
    ∧ (btcMid cfg m).index = m.nextIndex
    ∧ (btcMid cfg m).morphReady = true := by
  unfold btcMid
  dsimp only
  by_cases hcond : ¬ m.morphReady = true ∧ 0 < m.transitionProgress ∧
      (m.phase = Phase.fadeOut ∨ m.phase = Phase.fadeIn)
  · rw [if_pos hcond]
    have hstv : stvOf (updateSectionTransition cfg
          (setMorphProgress (easeInOutCubic m.transitionProgress)
            { m with morphReady := true }))
        = stvOf ({ m with morphReady := true } : Machine) :=
      (congrArg stvOfCore (ust_core cfg _)).trans (congrArg stvOfCore (smp_core _ _))
    have hq : (updateSectionTransition cfg
          (setMorphProgress (easeInOutCubic m.transitionProgress)
            { m with morphReady := true })).pendingScrollCarry
        = m.pendingScrollCarry := congrArg StView.pendingScrollCarry hstv
    have hni : (updateSectionTransition cfg
          (setMorphProgress (easeInOutCubic m.transitionProgress)
            { m with morphReady := true })).nextIndex
        = m.nextIndex := congrArg StView.nextIndex hstv
    have hmr : (updateSectionTransition cfg
          (setMorphProgress (easeInOutCubic m.transitionProgress)
            { m with morphReady := true })).morphReady
        = true := congrArg StView.morphReady hstv
    rw [hq, hni, hmr]
    exact ⟨rfl, rfl, rfl, rfl, rfl⟩
  · rw [if_neg hcond]
    have hstv : stvOf (updateSectionTransition cfg ({ m with morphReady := true } : Machine))
        = stvOf ({ m with morphReady := true } : Machine) :=
      congrArg stvOfCore (ust_core cfg _)
    have hq : (updateSectionTransition cfg
          ({ m with morphReady := true } : Machine)).pendingScrollCarry
        = m.pendingScrollCarry := congrArg StView.pendingScrollCarry hstv
    have hni : (updateSectionTransition cfg
          ({ m with morphReady := true } : Machine)).nextIndex
        = m.nextIndex := congrArg StView.nextIndex hstv
    have hmr : (updateSectionTransition cfg
          ({ m with morphReady := true } : Machine)).morphReady
        = true := congrArg StView.morphReady hstv
    rw [hq, hni, hmr]
    exact ⟨rfl, rfl, rfl, rfl, rfl⟩

/-- The continuation attached by beginSectionLoad, run below the synchronous
completion threshold: fadeIn entry with the carry consumed immediately. -/
lemma btc_spec (cfg : Config) (fuel : ℕ)
    (m : Machine) (hc1 : m.pendingScrollCarry < 1 - 1/10000) :
    (beginThenCallback cfg fuel m).phase = Phase.fadeIn
    ∧ (beginThenCallback cfg fuel m).transitionProgress = min 1 m.pendingScrollCarry
    ∧ (beginThenCallback cfg fuel m).pendingScrollCarry
        = max 0 (m.pendingScrollCarry - min 1 m.pendingScrollCarry)
    ∧ (beginThenCallback cfg fuel m).index = m.nextIndex
    ∧ (beginThenCallback cfg fuel m).morphReady = true := by
  obtain ⟨hph, htp, hpc, hidx, hmr⟩ := btcMid_stv cfg m
  have htpM : (btcMid cfg m).transitionProgress < 1 - 1/10000 := by
    rw [htp]
    exact lt_of_le_of_lt (min_le_right _ _) hc1
  have hb := btc_tail cfg fuel (btcMid cfg m) htpM
  rw [btc_eq cfg fuel m]
  exact ⟨(congrArg StView.phase hb).trans hph,
    (congrArg StView.transitionProgress hb).trans htp,
    (congrArg StView.pendingScrollCarry hb).trans hpc,
    (congrArg StView.index hb).trans hidx,
    (congrArg StView.morphReady hb).trans hmr⟩

/-- C2 (amended): when the continuation attached to the morph load runs, the
machine enters fadeIn with the pending scroll carry consumed immediately as
the initial fadeIn progress min(1, carry) — not replayed after completion —
and the carry reduced by the amount consumed; the synchronous completeFadeIn
jump happens only when that initial progress is already ≥ 1 - 1e-4. Below
that threshold the machine stays in fadeIn with the section index already
advanced to the target. -/
theorem C2_fadeIn_entry_consumes_carry_immediately (cfg : Config) (fuel : ℕ)
    (m : Machine) (hc1 : m.pendingScrollCarry < 1 - 1/10000) :
    (beginThenCallback cfg fuel m).phase = Phase.fadeIn
    ∧ (beginThenCallback cfg fuel m).transitionProgress = min 1 m.pendingScrollCarry
    ∧ (beginThenCallback cfg fuel m).pendingScrollCarry
        = max 0 (m.pendingScrollCarry - min 1 m.pendingScrollCarry)
    ∧ (beginThenCallback cfg fuel m).index = m.nextIndex
    ∧ (beginThenCallback cfg fuel m).morphReady = true :=
  btc_spec cfg fuel m hc1

/-- C2 witness: running the continuation on the loading fixture (carry 1/5)
enters fadeIn at progress 1/5 with the carry zeroed and the index advanced. -/
theorem C2_fadeIn_entry_consumes_carry_immediately_witness :
    c2b.pendingScrollCarry < 1 - 1/10000
    ∧ ((beginThenCallback cfg3 3 c2b).phase = Phase.fadeIn
    ∧ (beginThenCallback cfg3 3 c2b).transitionProgress
        = min 1 c2b.pendingScrollCarry
    ∧ (beginThenCallback cfg3 3 c2b).pendingScrollCarry
        = max 0 (c2b.pendingScrollCarry - min 1 c2b.pendingScrollCarry)
    ∧ (beginThenCallback cfg3 3 c2b).index = c2b.nextIndex
    ∧ (beginThenCallback cfg3 3 c2b).morphReady = true) :=
  ⟨by with_unfolding_all decide,
   C2_fadeIn_entry_consumes_carry_immediately cfg3 3 c2b
     (by with_unfolding_all decide)⟩

/-- C2 counterexample to the spec's wording: the loading fixture holds carry
1/5; when its load resolves, fadeIn begins at progress 1/5 — not at progress
0 with the carry replayed on completion — and the carry is zeroed at entry. -/
theorem C2_fadeIn_does_not_start_at_zero :
    c2b.phase = Phase.loading
    ∧ c2b.pendingScrollCarry = 1/5
    ∧ (resolveLoad cfg3 0 (some g1) c2b).phase = Phase.fadeIn
    ∧ (resolveLoad cfg3 0 (some g1) c2b).transitionProgress = 1/5
    ∧ (resolveLoad cfg3 0 (some g1) c2b).pendingScrollCarry = 0
    ∧ ¬ (1/5 : ℚ) = 0 := by
  with_unfolding_all decide

/-- C4 (code bug): when a morph-target load chain carrying the swallowing
catch from startSectionTransition fails, the rejection has already been
converted into a resolved value, so beginSectionLoad's abort handler never
runs: the then-continuation fires instead and the machine still enters
fadeIn with the section index advanced to the never-loaded target and
morphReady raised — it does not abort to idle, and the previous section is
not left displayed. -/
theorem C4_load_failure_still_enters_fadeIn (cfg : Config) (fuel : ℕ)
    (lid : ℕ) (m : Machine) (lr : LoadRec)
    (hfind : m.loads.find? (fun r => r.lid = lid) = some lr)
    (hout : lr.outcome = none) (hbeg : lr.hasBegin = true)
    (hsw : lr.swallow = true)
    (hcache : (getAsset m lr.target).geometry = none)
    (hcarry : m.pendingScrollCarry < 1 - 1/10000) :
    resolveLoadF cfg fuel lid none m
      = beginThenCallback cfg fuel
          { m with morphReady := false,
                   loads := m.loads.filter fun r => r.lid ≠ lid }
    ∧ (resolveLoadF cfg fuel lid none m).phase = Phase.fadeIn
    ∧ (resolveLoadF cfg fuel lid none m).index = m.nextIndex
    ∧ (resolveLoadF cfg fuel lid none m).morphReady = true := by
  have hkey : resolveLoadF cfg fuel lid none m
      = beginThenCallback cfg fuel
          { m with morphReady := false,
                   loads := m.loads.filter fun r => r.lid ≠ lid } := by
    unfold resolveLoadF
    dsimp only
    split
    · next heq => exact Option.noConfusion (hfind.symm.trans heq)
    · next lr2 heq =>
      have hlr : lr2 = lr := by
        have h := hfind.symm.trans heq
        injection h with h2
        exact h2.symm
      subst hlr
      rw [if_neg (fun hx => hx hout), hcache]
      dsimp only
      rw [if_pos hsw]
      rw [if_pos hbeg]
      rw [if_pos hsw]
  have hbtc := btc_spec cfg fuel
    { m with morphReady := false, loads := m.loads.filter fun r => r.lid ≠ lid }
    hcarry
  exact ⟨hkey, hkey ▸ hbtc.1, hkey ▸ hbtc.2.2.2.1, hkey ▸ hbtc.2.2.2.2⟩

/-- C4 witness: failing the pending load of the loading fixture (which
carries the swallowing catch) still runs the fadeIn continuation: the index
advances to the never-loaded section 1 and morphReady is raised. -/
theorem C4_load_failure_still_enters_fadeIn_witness :
    (c2b.loads.find? (fun r => r.lid = 0) = some ⟨0, 1, true, true, none⟩
      ∧ (getAsset c2b 1).geometry = none
      ∧ c2b.pendingScrollCarry < 1 - 1/10000)
    ∧ (resolveLoadF cfg3 9 0 none c2b
      = beginThenCallback cfg3 9
          { c2b with morphReady := false,
                     loads := c2b.loads.filter fun r => r.lid ≠ 0 }
    ∧ (resolveLoadF cfg3 9 0 none c2b).phase = Phase.fadeIn
    ∧ (resolveLoadF cfg3 9 0 none c2b).index = c2b.nextIndex
    ∧ (resolveLoadF cfg3 9 0 none c2b).morphReady = true) :=
  ⟨⟨by with_unfolding_all decide, by with_unfolding_all decide,
    by with_unfolding_all decide⟩,
   C4_load_failure_still_enters_fadeIn cfg3 9 0 c2b ⟨0, 1, true, true, none⟩
     (by with_unfolding_all decide) (by with_unfolding_all decide)
     (by with_unfolding_all decide) (by with_unfolding_all decide)
     (by with_unfolding_all decide) (by with_unfolding_all decide)⟩

/-- C1 (amended): resolving an outstanding load chain that beginSectionLoad
has not yet claimed writes the freshly derived morph arrays straight into
the asset cache and the live morphTarget/morphColor attributes via
morphTargetStep, with no token or generation counter compared against the
machine's current transition target: the only records kept are the asset
cache and the chain's own resolved flag. -/
theorem C1_unclaimed_resolution_writes_morph_buffer (cfg : Config) (fuel : ℕ)
    (lid : ℕ) (g : Geom) (m : Machine) (lr : LoadRec)
    (hfind : m.loads.find? (fun r => r.lid = lid) = some lr)
    (hout : lr.outcome = none) (hbeg : lr.hasBegin = false)
    (hcache : (getAsset m lr.target).geometry = none) :
    resolveLoadF cfg fuel lid (some g) m
      = (let m1 := setAsset m lr.target
           { getAsset m lr.target with geometry := some g }
         let step := morphTargetStep cfg lr.target g m1
         let m3 := if lr.swallow = true then { step.1 with morphReady := step.2 }
           else step.1
         { m3 with loads := m3.loads.map fun r =>
             if r.lid = lid then { r with outcome := some step.2 } else r }) := by
  unfold resolveLoadF
  dsimp only
  split
  · next heq => exact Option.noConfusion (hfind.symm.trans heq)
  · next lr2 heq =>
    have hlr : lr2 = lr := by
      have h := hfind.symm.trans heq
      injection h with h2
      exact h2.symm
    subst hlr
    rw [if_neg (fun hx => hx hout), hcache]
    dsimp only
    rw [if_pos (rfl : (none : Option Geom) = none)]
    rw [if_neg (fun hx => Bool.noConfusion (hbeg.symm.trans hx))]

/-- C1 witness: in the section-2 trace the stale, unclaimed section-1 chain
resolves with geometry g1 and rewrites the cache and attributes exactly as
morphTargetStep prescribes, with no staleness check. -/
theorem C1_unclaimed_resolution_writes_morph_buffer_witness :
    (c1d.loads.find? (fun r => r.lid = 0) = some ⟨0, 1, false, true, none⟩
      ∧ (getAsset c1d 1).geometry = none)
    ∧ resolveLoadF cfg3 9 0 (some g1) c1d
      = (let m1 := setAsset c1d 1 { getAsset c1d 1 with geometry := some g1 }
         let step := morphTargetStep cfg3 1 g1 m1
         let m3 := if true = true then { step.1 with morphReady := step.2 }
           else step.1
         { m3 with loads := m3.loads.map fun r =>
             if r.lid = 0 then { r with outcome := some step.2 } else r }) :=
  ⟨⟨by with_unfolding_all decide, by with_unfolding_all decide⟩,
   C1_unclaimed_resolution_writes_morph_buffer cfg3 9 0 g1 c1d
     ⟨0, 1, false, true, none⟩
     (by with_unfolding_all decide) (by with_unfolding_all decide)
     (by with_unfolding_all decide) (by with_unfolding_all decide)⟩

/-- C1 counterexample to the spec's wording: with the machine transitioning
toward section 2 (nextSection = 2, buffer already holding section 2's morph
positions), the stale section-1 load resolves late and overwrites the
displayed morphTarget attribute with section-1 data — no token/generation
counter discards it. -/
theorem C1_stale_resolution_overwrites_buffer :
    c1c.nextSection = some 2
    ∧ c1d.nextSection = some 2
    ∧ c1d.points.map (fun p => p.morphTargetAttr)
        = some [⟨20, 0, 0⟩, ⟨20, 0, 0⟩]
    ∧ c1e.nextSection = some 2
    ∧ c1e.points.map (fun p => p.morphTargetAttr)
        = some [⟨10, 0, 0⟩, ⟨12, 0, 0⟩]
    ∧ ¬ ([(⟨10, 0, 0⟩ : V3), ⟨12, 0, 0⟩] = [(⟨20, 0, 0⟩ : V3), ⟨20, 0, 0⟩]) := by
  with_unfolding_all decide

lemma clampQ_mem (v lo hi : ℚ) (h : lo ≤ hi) :
    lo ≤ clampQ v lo hi ∧ clampQ v lo hi ≤ hi :=
  ⟨le_max_left _ _, max_le h (min_le_left _ _)⟩

lemma lerpQ_bounds (x y t lo hi : ℚ) (hx1 : lo ≤ x) (hx2 : x ≤ hi)
    (hy1 : lo ≤ y) (hy2 : y ≤ hi) (ht0 : 0 ≤ t) (ht1 : t ≤ 1) :
    lo ≤ lerpQ x y t ∧ lerpQ x y t ≤ hi := by
  unfold lerpQ
  constructor <;> nlinarith

/-- C9 (amended): the direct setters clamp the camera offsets — yaw to
[-360,360], pitch to [-60,60] — but the per-frame interpolation of
updateCameraPose writes the lerped yaw/pitch back unclamped; its writes stay
in range only when both stored pose snapshots (which come from the section
configuration) are themselves in range. -/
theorem C9_camera_offsets_clamped_only_by_setters (d prog : ℚ) (m : Machine)
    (ps pe : Pose)
    (hsp : m.cameraStartPose = some ps) (hep : m.cameraEndPose = some pe)
    (hy1 : -360 ≤ ps.yaw) (hy2 : ps.yaw ≤ 360)
    (hy3 : -360 ≤ pe.yaw) (hy4 : pe.yaw ≤ 360)
    (hp1 : -60 ≤ ps.pitch) (hp2 : ps.pitch ≤ 60)
    (hp3 : -60 ≤ pe.pitch) (hp4 : pe.pitch ≤ 60) :
    (-360 ≤ (setCameraYawOffset d m).cameraYawOffsetDeg
      ∧ (setCameraYawOffset d m).cameraYawOffsetDeg ≤ 360)
    ∧ (-60 ≤ (setCameraPitchOffset d m).cameraPitchOffsetDeg
      ∧ (setCameraPitchOffset d m).cameraPitchOffsetDeg ≤ 60)
    ∧ (updateCameraPose prog m).cameraYawOffsetDeg
        = lerpQ ps.yaw pe.yaw (clampQ prog 0 1)
    ∧ (updateCameraPose prog m).cameraPitchOffsetDeg
        = lerpQ ps.pitch pe.pitch (clampQ prog 0 1)
    ∧ (-360 ≤ (updateCameraPose prog m).cameraYawOffsetDeg
      ∧ (updateCameraPose prog m).cameraYawOffsetDeg ≤ 360)
    ∧ (-60 ≤ (updateCameraPose prog m).cameraPitchOffsetDeg
      ∧ (updateCameraPose prog m).cameraPitchOffsetDeg ≤ 60) := by
  have ht := clampQ_mem prog 0 1 (by norm_num)
  have hyaw : (updateCameraPose prog m).cameraYawOffsetDeg
      = lerpQ ps.yaw pe.yaw (clampQ prog 0 1) := by
    unfold updateCameraPose
    dsimp only
    rw [hsp, hep]
    simp only [Option.getD_some]
  have hpitch : (updateCameraPose prog m).cameraPitchOffsetDeg
      = lerpQ ps.pitch pe.pitch (clampQ prog 0 1) := by
    unfold updateCameraPose
    dsimp only
    rw [hsp, hep]
    simp only [Option.getD_some]
  refine ⟨clampQ_mem d (-360) 360 (by norm_num),
    clampQ_mem d (-60) 60 (by norm_num), hyaw, hpitch, ?_, ?_⟩
  · rw [hyaw]
    exact lerpQ_bounds ps.yaw pe.yaw _ _ _ hy1 hy2 hy3 hy4 ht.1 ht.2
  · rw [hpitch]
    exact lerpQ_bounds ps.pitch pe.pitch _ _ _ hp1 hp2 hp3 hp4 ht.1 ht.2

def cfgBad : Config := ⟨[
  { modelPath := 0 },
  { modelPath := 1, cameraYaw := some 500 }]⟩

def sB : Machine :=
  { index := 0, phase := .idle, isReady := true, backgroundGradient := gGray }

/-- A fadeIn machine with in-range pose snapshots, for the C9 witness. -/
def mC9 : Machine :=
  { index := 0, phase := .fadeIn, backgroundGradient := gGray,
    cameraStartPose := some ⟨0, 30, -10⟩, cameraEndPose := some ⟨1/2, -18, -8⟩ }

/-- C9 witness: on a machine whose pose snapshots are in range, the setters
clamp the extreme input 500 and the per-frame interpolation at progress 1/3
stays within both ranges. -/
theorem C9_camera_offsets_clamped_only_by_setters_witness :
    (mC9.cameraStartPose = some ⟨0, 30, -10⟩
      ∧ mC9.cameraEndPose = some ⟨1/2, -18, -8⟩)
    ∧ ((-360 ≤ (setCameraYawOffset 500 mC9).cameraYawOffsetDeg
      ∧ (setCameraYawOffset 500 mC9).cameraYawOffsetDeg ≤ 360)
    ∧ (-60 ≤ (setCameraPitchOffset 500 mC9).cameraPitchOffsetDeg
      ∧ (setCameraPitchOffset 500 mC9).cameraPitchOffsetDeg ≤ 60)
    ∧ (updateCameraPose (1/3) mC9).cameraYawOffsetDeg
        = lerpQ (⟨0, 30, -10⟩ : Pose).yaw (⟨1/2, -18, -8⟩ : Pose).yaw
            (clampQ (1/3) 0 1)
    ∧ (updateCameraPose (1/3) mC9).cameraPitchOffsetDeg
        = lerpQ (⟨0, 30, -10⟩ : Pose).pitch (⟨1/2, -18, -8⟩ : Pose).pitch
            (clampQ (1/3) 0 1)
    ∧ (-360 ≤ (updateCameraPose (1/3) mC9).cameraYawOffsetDeg
      ∧ (updateCameraPose (1/3) mC9).cameraYawOffsetDeg ≤ 360)
    ∧ (-60 ≤ (updateCameraPose (1/3) mC9).cameraPitchOffsetDeg
      ∧ (updateCameraPose (1/3) mC9).cameraPitchOffsetDeg ≤ 60)) :=
  ⟨⟨by with_unfolding_all decide, by with_unfolding_all decide⟩,
   C9_camera_offsets_clamped_only_by_setters 500 (1/3) mC9 ⟨0, 30, -10⟩
     ⟨1/2, -18, -8⟩
     (by with_unfolding_all decide) (by with_unfolding_all decide)
     (by with_unfolding_all decide) (by with_unfolding_all decide)
     (by with_unfolding_all decide) (by with_unfolding_all decide)
     (by with_unfolding_all decide) (by with_unfolding_all decide)
     (by with_unfolding_all decide) (by with_unfolding_all decide)⟩

/-- C9 counterexample to the spec's wording: a section configured with yaw
500 produces a camera end pose of yaw 500, and the per-frame interpolation at
full progress writes 500 into the yaw offset — outside [-360,360]; no clamp
runs on this write path. -/
theorem C9_interpolation_writes_unclamped_yaw :
    (startSectionTransition cfgBad 1 1 0 sB).cameraEndPose = some ⟨0, 500, 0⟩
    ∧ (updateCameraPose 1 (startSectionTransition cfgBad 1 1 0 sB)).cameraYawOffsetDeg
        = 500
    ∧ ¬ (500 : ℚ) ≤ 360 := by
  with_unfolding_all decide

/-- C7 witness: three source points resampled to two slots give fractions
[0, 1]: slot 0 maps to index 0 and the final slot clamps to index 2. -/
theorem C7_computeSampleFractions_spec_witness :
    ((1:ℕ) ≤ 3 ∧ (1:ℕ) ≤ 2)
    ∧ ((computeSampleFractionsCore 3 2).length = 2
    ∧ (∀ q ∈ computeSampleFractionsCore 3 2, 0 ≤ q ∧ q ≤ 1)
    ∧ (∀ i j, i ≤ j → j < 2 →
        (computeSampleFractionsCore 3 2).getD i 0
          ≤ (computeSampleFractionsCore 3 2).getD j 0)
    ∧ (1 < 3 → (computeSampleFractionsCore 3 2).getD (2 - 1) 0 = 1)
    ∧ (3 = 1 → (computeSampleFractionsCore 3 2).getD (2 - 1) 0 = 0)
    ∧ (∀ i, i < 2 → sampleIndex 3 2 i = if i = 2 - 1 then 3 - 1 else i * 3 / 2)
    ∧ (∀ g : Geom, g.positions.length = 3 →
        computeSampleFractions g 2 = some (computeSampleFractionsCore 3 2))) :=
  ⟨⟨by decide, by decide⟩,
   C7_computeSampleFractions_spec 3 2 (by decide) (by decide)⟩

/-- C8 witness: downsampling the three-point cloud g1 at ratio 1/2 keeps one
point with fraction 1, and resampling g1 by that fraction returns the same
single position. -/
theorem C8_selfResample_roundTrip_witness :
    createPointGeometry g1 (some g1) (1/2)
        = some ⟨1, [⟨12, 0, 0⟩], [1], none, [⟨12, 0, 0⟩], none⟩
    ∧ ((⟨1, [⟨12, 0, 0⟩], [1], none, [⟨12, 0, 0⟩], none⟩
          : PointGeomResult).morphArray
        = (⟨1, [⟨12, 0, 0⟩], [1], none, [⟨12, 0, 0⟩], none⟩
          : PointGeomResult).positions
    ∧ generateMorphTargetArrayWithFractions
        (⟨1, [⟨12, 0, 0⟩], [1], none, [⟨12, 0, 0⟩], none⟩
          : PointGeomResult).keepCount g1
        (⟨1, [⟨12, 0, 0⟩], [1], none, [⟨12, 0, 0⟩], none⟩
          : PointGeomResult).sampleFractions
        = some (⟨1, [⟨12, 0, 0⟩], [1], none, [⟨12, 0, 0⟩], none⟩
          : PointGeomResult).positions) :=
  ⟨by with_unfolding_all decide,
   C8_selfResample_roundTrip g1 (1/2)
     ⟨1, [⟨12, 0, 0⟩], [1], none, [⟨12, 0, 0⟩], none⟩
     (by with_unfolding_all decide)⟩

end CostOfAQuestion








